import Mathlib

/-!
Verification development for the query-response engine of `src/api.py`
(class `CustomAI` and its FastAPI endpoint).

Conventions of the shallow embedding:
* Strings are Lean `String`s; character-level work happens on `List Char`
  with structural (fuel-bounded) recursions so that every definition is
  executable and kernel-reducible.
* Python's global `random` source is modelled as an explicit stream of
  naturals (`List Nat`), consumed in the order the source draws random
  values: `random.choice` consumes one value (index modulo list length),
  `random.sample(range n, k)` consumes `k` values (selection without
  replacement over the remaining candidates).
* TF-IDF vectors are lists of rationals; the sklearn vectorizer is an
  external collaborator and enters the model as a parameter
  `v : String → List ℚ` mapping each document to its row, so a corpus's
  feature matrix is `queries.map v` (one row per document, as
  `fit_transform`/`transform` produce). Floating point is modelled by exact
  rational arithmetic.
* `np.argmin` over Euclidean norms is embedded as the first index of the
  minimal squared distance: squaring is strictly monotone on the
  nonnegative reals, so the chosen index is the same.
* Python dicts (insertion-ordered) are association lists.
* Rendering appears twice: a total replacement (`renderT`), faithful to
  `str.format` whenever the template's braces are exactly `{query}` slots
  (true of every statically configured template), used by the
  selection/dedup development; and a fallible rendering (`renderTE`) that
  models `str.format`'s raising behavior on malformed templates, threaded
  through the fallible copies of the engine up to `endpointModelE`, which
  carries the handler's catch-all error path as well.
-/

namespace QRApi

/-! ### Character-list utilities -/

/-- Lower-case a character list; models Python `str.lower` on the ASCII
texts this program handles. -/
def lowerL (l : List Char) : List Char := l.map Char.toLower

def isPrefixL : List Char → List Char → Bool
  | [], _ => true
  | _ :: _, [] => false
  | a :: as, b :: bs => a == b && isPrefixL as bs

/-- Substring containment; models Python `needle in hay`. -/
def containsL (needle : List Char) : List Char → Bool
  | [] => needle.isEmpty
  | c :: rest => isPrefixL needle (c :: rest) || containsL needle rest

/-- Replace every non-overlapping occurrence of `pat` (left to right);
fuel-bounded structural recursion, `fuel = s.length` always suffices
because every step consumes at least one character. Models Python
`str.replace` for a non-empty pattern. -/
def replaceFuel (pat rep : List Char) : Nat → List Char → List Char
  | 0, s => s
  | _ + 1, [] => []
  | fuel + 1, c :: rest =>
    if isPrefixL pat (c :: rest) && !pat.isEmpty then
      rep ++ replaceFuel pat rep fuel ((c :: rest).drop pat.length)
    else
      c :: replaceFuel pat rep fuel rest

def replaceL (s pat rep : List Char) : List Char := replaceFuel pat rep s.length s

/-- Count non-overlapping occurrences of `pat`, left to right. -/
def countOccFuel (pat : List Char) : Nat → List Char → Nat
  | 0, _ => 0
  | _ + 1, [] => 0
  | fuel + 1, c :: rest =>
    if isPrefixL pat (c :: rest) && !pat.isEmpty then
      1 + countOccFuel pat fuel ((c :: rest).drop pat.length)
    else
      countOccFuel pat fuel rest

def countOcc (s pat : List Char) : Nat := countOccFuel pat s.length s

/-- Strip whitespace from both ends; models Python `str.strip()`. -/
def trimL (s : List Char) : List Char :=
  ((s.dropWhile Char.isWhitespace).reverse.dropWhile Char.isWhitespace).reverse

/-! ### Association lists (Python dicts, insertion-ordered) -/

def lookupA {α : Type} : List (String × α) → String → Option α
  | [], _ => none
  | (k', v) :: rest, k => if k' = k then some v else lookupA rest k

/-- `m[k].append(v)`, inserting `k → [v]` at the end when `k` is absent:
the combination `if k not in m: m[k] = []` followed by `m[k].append(v)`. -/
def updAppend {α : Type} : List (String × List α) → String → α → List (String × List α)
  | [], k, v => [(k, [v])]
  | (k', vs) :: rest, k, v =>
    if k' = k then (k', vs ++ [v]) :: rest else (k', vs) :: updAppend rest k v

/-! ### Randomness as an explicit stream -/

def draw (r : List Nat) : Nat × List Nat := (r.headD 0, r.tail)

/-- Models `random.choice l` for non-empty `l`: the next stream value picks
the index modulo the length. The source only calls it on non-empty lists. -/
def chooseL {α : Type} (l : List α) (d : α) (r : List Nat) : α × List Nat :=
  let vr := draw r
  (l.getD (vr.1 % l.length) d, vr.2)

/-- Remove the element at position `v % length` from the candidate list. -/
def pickOut (cands : List Nat) (v : Nat) : Nat × List Nat :=
  let i := v % cands.length
  (cands.getD i 0, cands.take i ++ cands.drop (i + 1))

/-- Models `random.sample(range n, k)` over an explicit candidate list:
`k` draws without replacement, each stream value selecting among the
remaining candidates. -/
def sampleIdxs : Nat → List Nat → List Nat → List Nat × List Nat
  | 0, _, r => ([], r)
  | k + 1, cands, r =>
    let vr := draw r
    let xrest := pickOut cands vr.1
    let tail := sampleIdxs k xrest.2 vr.2
    (xrest.1 :: tail.1, tail.2)

/-! ### Rational vectors -/

def dotQ : List ℚ → List ℚ → ℚ
  | [], _ => 0
  | _, [] => 0
  | a :: as, b :: bs => a * b + dotQ as bs

def normSq (v : List ℚ) : ℚ := dotQ v v

/-- Squared Euclidean distance between two vectors of equal dimension. -/
def distSq (a b : List ℚ) : ℚ := normSq (List.zipWith (· - ·) a b)

def addV (a b : List ℚ) : List ℚ := List.zipWith (· + ·) a b

def sumV : List (List ℚ) → List ℚ
  | [] => []
  | [v] => v
  | v :: v' :: rest => addV v (sumV (v' :: rest))

/-- Componentwise mean of a non-empty family, `np.mean(pts, axis=0)`. -/
def meanV (vs : List (List ℚ)) : List ℚ := (sumV vs).map (· / (vs.length : ℚ))

/-- Value and first index of the minimum (`np.argmin` ties break to the
first occurrence). Junk value on `[]`, which the source never reaches. -/
def argminP : List ℚ → ℚ × Nat
  | [] => (0, 0)
  | [x] => (x, 0)
  | x :: y :: rest =>
    let (m, j) := argminP (y :: rest)
    if x ≤ m then (x, 0) else (m, j + 1)

def argminIdx (l : List ℚ) : Nat := (argminP l).2

/-- Value and first index of the maximum (`np.argmax` ties break to the
first occurrence). -/
def argmaxP : List ℚ → ℚ × Nat
  | [] => (0, 0)
  | [x] => (x, 0)
  | x :: y :: rest =>
    let (m, j) := argmaxP (y :: rest)
    if x < m then (m, j + 1) else (x, 0)

def argmaxIdx (l : List ℚ) : Nat := (argmaxP l).2

/-! ### Static configuration data, transcribed verbatim from `CustomAI.__init__`
and `CustomAI.generate_new_response` -/

/-- `self.response_formats`: the generic template list. -/
def responseFormats : List String := [
  "To {query}, please use the website’s designated process.",
  "For {query}, follow the instructions on our site.",
  "Regarding {query}, check the appropriate section on the website.",
  "To address {query}, refer to the site’s guidelines.",
  "For assistance with {query}, explore the available options online.",
  "To handle {query}, use the provided tools on the website.",
  "Concerning {query}, navigate to the site’s resources."
]

structure CatInfo where
  keywords : List String
  responses : List String
deriving DecidableEq

/-- `self.query_response_map`: category table in declaration order. -/
def queryResponseMap : List (String × CatInfo) := [
  ("greeting",
   { keywords := ["hello", "hi", "help"],
     responses := [
     "Hello and welcome to Flix! I’m here to assist with {query}.",
     "Greetings and welcome to Flix. How may I help with {query}?",
     "Welcome to Flix! My name is here to assist with {query}.",
     "Hi, Welcome to Flix, I am here to assist with {query}.",
     "I appreciate that you have reached out to us with your query about {query}.",
     "Thank you for reaching out with your inquiry about {query}.",
     "I am grateful that you contacted us regarding your concern about {query}.",
     "I appreciate that you are reporting to us about this concern: {query}. I will look into it immediately."] }),
  ("verification",
   { keywords := ["verify", "booking details", "pnr"],
     responses := [
     "Sure, I'm here to help. To assist you effectively with {query}, please provide the following details: Booking number or PNR Number, Passenger's full name, Booking email address or booking phone number.",
     "Certainly, I'm ready to assist you with {query}. To ensure I can help you effectively, please provide the following details: Booking number, Passenger's full name, Booking email address or booking phone number.",
     "Could you please provide the following details to help us complete the verification process for {query}?",
     "To proceed with the verification for {query}, may I kindly ask you to share the required information?",
     "For the purpose of {query}, please help us by providing the details listed on our website.",
     "Thank you for sharing the details for {query}. Please allow me a moment to look for your concern.",
     "Thank you for providing the information for {query}. Please allow me a moment to check with the details.",
     "Thank you for sharing these details on {query}. Just a moment, please, I'm checking.",
     "I'm still checking your booking/ride details for {query}. Please be with me.",
     "I got your booking but need to check the issue with your ride for {query}."] }),
  ("appreciate_patience",
   { keywords := ["patience", "wait"],
     responses := [
     "Thank you so much for your patience with {query}.",
     "I really appreciate your patience with {query}.",
     "Thank you so much for notifying me about the issue: {query}.",
     "Thank you for reaching out to me about this: {query}.",
     "I will help resolve your issue with {query}.",
     "I appreciate your patience in this matter: {query}.",
     "Your patience is appreciated for {query}.",
     "Thank you for your patience regarding {query}."] }),
  ("change_boarding_point",
   { keywords := ["change boarding point", "board from another location"],
     responses := [
     "May I know why you want to change the boarding point for {query}?",
     "As per our T&C, your ticket is valid for the boarding location booked, and I regret to inform that boarding from another location isn’t possible for {query}.",
     "I understand your preference for boarding the bus from your desired location for {query}. However, to ensure a smooth process, we kindly ask you to board from the designated location where the QR code can be scanned by the bus staff.",
     "While I appreciate your desire to board the bus from a different location for {query}, please note that the process requires the QR code to be scanned by the host at the specified boarding point.",
     "I understand your request to board the bus from your chosen location for {query}. Unfortunately, due to our procedures, the QR code must be scanned by the host at the specified point.",
     "Thank you for your understanding. Although we recognize your preferred boarding location for {query}, our process mandates that the QR code be scanned by the host at the assigned area.",
     "I appreciate your interest in boarding from your preferred spot for {query}. However, to adhere to our process, the QR code must be scanned by the host at the designated boarding area."] }),
  ("boarding_point_details",
   { keywords := ["boarding point details", "where to board"],
     responses := [
     "The ticket contains essential details such as the boarding points, bus route number, a link in the bottom right corner, and a GPS link that can be accessed by clicking on the boarding point for more information about {query}.",
     "You can find important information on the ticket, including boarding points, the bus route number, a link at the bottom right corner, and a GPS link accessible by clicking on the boarding point for {query}.",
     "The ticket provides various details, such as the boarding points, the bus route number, a link located in the bottom right corner, and a GPS link by clicking on the boarding point for further information about {query}."] }),
  ("price_difference",
   { keywords := ["price difference", "why price change"],
     responses := [
     "I would like to inform you that prices are dynamic and may change on the website with time for {query}.",
     "Please note that our prices are dynamically adjusted based on demand, availability, and other factors to ensure the best possible experience for all our passengers for {query}.",
     "To provide you with an accurate and fair pricing, our rates are dynamically updated for {query}. We recommend booking early to secure the best available price.",
     "We always recommend our passengers a price lock feature where the price shown at the time of selection is reserved for 10 minutes, allowing passengers to complete their booking at the same rate for {query}.",
     "We suggest booking early and utilizing the price lock feature to secure the most favorable fare for {query}.",
     "Different boarding or drop-off locations, timing, seat type, extra services, or demand can affect pricing for {query}."] }),
  ("pre_departure_call",
   { keywords := ["pre-departure call", "call before departure"],
     responses := [
     "I completely understand that you are expecting a call from the bus staff for {query}. Please note that pre-departure calls are not mandatory; however, the host might call you before arriving at your departure point."] }),
  ("bus_running_late",
   { keywords := ["bus running late", "late bus"],
     responses := [
     "I regret to inform you that the bus is running late due to some operational reason and apologize for the inconvenience caused due to delay for {query}.",
     "So requesting you to please be available on the boarding point as the ride has already been departed from the previous boarding point and now going to reach your boarding point as quickly as possible for {query}.",
     "As per the updated information, the expected time of the ride to reach your boarding point is available on our website for {query}.",
     "Additionally, I’m sharing the bus host contact number for your better assistance with {query}.",
     "I hope I’m able to help you with your query: {query}. Is there anything else I may help you?"] }),
  ("missed_bus",
   { keywords := ["missed bus", "left behind"],
     responses := [
     "We see you as a valued customer and do not wish to leave you behind for {query}. However, it’s necessary to move the bus on schedule, as we have a commitment to punctuality.",
     "We appreciate you as a valued customer and have no intention of leaving you behind for {query}. At the same time, we must adhere to the bus's scheduled departure time for the sake of punctuality.",
     "We truly value you as a customer, and it’s not in our interest to leave you behind for {query}. However, we also have to ensure the bus departs on time, as punctuality is essential.",
     "I sincerely apologize for the inconvenience caused by missing the bus for {query}.",
     "I understand how frustrating this can be, and I’m here to help you with any further assistance you may need for {query}.",
     "Please help me with the booking reference number or the PNR number for verification process so that I can help you with the information associated with your journey with Flix for {query}.",
     "I would like to inform you that the ride has departed from the designated boarding point as per the mentioned time of the ticket and all the other passengers from the same boarding point have taken their rides without facing any difficulties for {query}.",
     "I can understand that due to some reason you are not being able to reach the boarding point before the mentioned time due to which you are unable to take the ride for {query}.",
     "After a careful investigation, I must conclude that as there are no operational issues associated with your ride for {query}, I apologize and I’m unable to provide any alternative nor process with the refund.",
     "I completely understand your concern, and I genuinely want to help you with {query}. However, the system currently doesn’t allow me to process the refund."] }),
  ("bus_host_number",
   { keywords := ["bus number", "host number"],
     responses := [
     "I really apologize that I am unable to provide the bus number; however, you may identify your ride through the route number mentioned on the ticket for {query}."] }),
  ("bus_driver_host_details",
   { keywords := ["bus driver details", "host details"],
     responses := [
     "I regret to inform you that we don't have access to the bus driver or host's contact information for {query}. So, we always request our passengers to be at the pickup point 15 minutes prior to the departure."] }),
  ("where_is_my_bus",
   { keywords := ["where is my bus", "bus location"],
     responses := [
     "As checked, the ride is scheduled, and it will arrive at the boarding point as per the mentioned time on the ticket for {query}.",
     "I’m requesting you to please be present at the boarding point 15 minutes before the departure time of the bus for {query}, so that you can easily board the bus.",
     "Here I’m sharing the bus route number, which is mentioned on the ticket and available in front of the bus for {query}.",
     "Additionally, I’m sharing the tracking link of your ride for {query}, which will be operational when the ride departs from your designated boarding point."] }),
  ("where_is_boarding_point",
   { keywords := ["where is boarding point", "boarding location"],
     responses := [
     "This is the address of your boarding point for {query}, available on the ticket.",
     "This is the Google map link for the exact boarding point location for {query}.",
     "I’m requesting you to please be available on the boarding point 15 minutes before the departure time of the bus for {query}, so that you can easily board the bus."] }),
  ("bus_delay",
   { keywords := ["bus delay", "delayed bus"],
     responses := [
     "I’m sincerely apologizing for the delay of the ride and sorry for the inconvenience caused to you for {query}.",
     "I would like to inform you that due to some operational reason, the ride has been delayed for {query}, and our operational team is trying to manage the delay.",
     "I regret to inform you that due to heavy traffic, the ride got stuck for {query}, and now it’s back on track.",
     "Here I’m sharing the bus route number for {query}, which is mentioned on the ticket and available in front of the bus.",
     "This is the tracking link of the ride for {query}, which will be operational when the bus starts from the initial boarding point.",
     "So, it’s a request to please be available on the boarding point with your all the boarding details as the ride is going to reach your boarding point anytime for {query}."] }),
  ("pax_running_late",
   { keywords := ["running late", "wait for me"],
     responses := [
     "Extremely sorry to inform you that the bus will depart from the boarding point as per the scheduled time for {query}, so requesting you to please try to reach the boarding point before the mentioned time.",
     "Unfortunately, the bus cannot wait for our delayed passengers for {query}.",
     "If you can’t reach in time for {query}, you can cancel your ride up to 15 minutes before departure via manage my booking on our website.",
     "This is the bus host contact number and route number of your bus for {query}, mentioned on your ticket."] }),
  ("ride_cancellation",
   { keywords := ["ride cancellation", "cancel ride"],
     responses := [
     "I’m really sorry for the inconvenience caused to you due to the ride cancellation for {query}, and a self-help link has been provided to you via email.",
     "So requesting you to please check your email inbox along with the spam folder for {query}, and after clicking on that link, you will be able to book an alternative ride completely free of cost.",
     "Or if you want, I can help you with the full ticket refund by cancelling the ticket from our end for {query}, and the refund will be credited within 7 working days.",
     "Thank you for the confirmation. Please give a moment to proceed for the cancellation process for {query}.",
     "This is the cancellation invoice for your ticket for {query}.",
     "After the completion of the given time, if you are facing any difficulties regarding the refund for {query}, then don’t hesitate to reach out to us."] }),
  ("pax_no_show",
   { keywords := ["no show", "missed ride refund"],
     responses := [
     "I deeply apologize for the inconvenience you’re experiencing for {query}, and I understand your situation. I’m unable to proceed with either the refund or booking an alternative ride.",
     "I understand your concern and want to assist you with {query}, but unfortunately, our system prevents us from taking any further action in this case.",
     "I understand your situation, and I’d likely feel frustrated too for {query}. I am sorry I am unable to meet your request at this time.",
     "As per our company policy, in such cases where the service has been provided as intended for {query}, we are unable to process a refund.",
     "Following a detailed investigation, we confirmed that the bus arrived at the designated boarding point, other passengers boarded successfully, and the bus departed as scheduled for {query}.",
     "After a thorough review of the incident, we have determined that the bus arrived at the designated boarding point on time for {query}, and other passengers boarded without issue.",
     "We have thoroughly reviewed the situation and found that the bus arrived at the designated boarding point for {query}, successfully boarded other passengers, and departed after the scheduled time.",
     "Upon review, we found that the bus reached the boarding point on time for {query}, boarded other passengers, and departed after the scheduled time."] }),
  ("changes_after_booking_denial",
   { keywords := ["change booking", "modify booking"],
     responses := [
     "Once your ticket is booked, we are unable to modify it from our side for {query}. Please visit our website, go to ‘Manage My Booking,’ and fill in the required information.",
     "We cannot change your booking after it has been confirmed for {query}. Please go to our website, select ‘Manage My Booking,’ and provide the needed details."] }),
  ("booking_process",
   { keywords := ["booking process", "how to book"],
     responses := [
     "To assist with {query}, please access the booking links provided on our website and select 'CONTINUE' to proceed to the checkout page.",
     "For {query}, ensure you have a valid identification proof like Aadhar Card, Passport, or Driving License for boarding.",
     "Regarding {query}, we accept payment methods like Credit Cards, UPI, and Net Banking, with a platform fee of Rs 5.",
     "For {query}, note that seat options include standard, window, and premium seats, with details available on the website.",
     "To complete {query}, fill out the necessary details for seat reservation, passenger information, contact details, and payment on our booking portal."] }),
  ("changes_via_mmb",
   { keywords := ["change date", "change time", "postpone ride"],
     responses := [
     "If you wish to change the date or time of your ride for {query}, cancel, or postpone it, you can easily make these adjustments through the ‘Manage My Booking’ section.",
     "If you need to reschedule, cancel, or postpone your ride for {query}, you can manage these changes through the ‘Manage My Booking’ portal."] }),
  ("complaint_feedback",
   { keywords := ["complaint", "feedback"],
     responses := [
     "Thank you so much! We're thrilled to hear that you enjoyed your experience with us for {query}.",
     "Your feedback on my response for {query} is important to me! Please provide it via our website.",
     "We appreciate your feedback for {query} and look forward to hearing from you on our support page."] }),
  ("rude_staff_complaint",
   { keywords := ["rude driver", "rude host", "staff behavior"],
     responses := [
     "I sincerely apologize for the unpleasant experience you had with the driver and the bus host for {query}.",
     "We deeply regret that their behavior was not up to the standards you expect and deserve for {query}.",
     "We value our passengers’ comfort and respect, and it’s truly disappointing to hear about this situation for {query}.",
     "Please be assured that I will escalate this matter to the relevant team for a thorough review and appropriate action for {query}.",
     "I would also be grateful if you could provide feedback on how I’ve assisted you today with {query}."] }),
  ("bus_breakdown_refund",
   { keywords := ["breakdown refund", "bus issue refund"],
     responses := [
     "Thank you for reaching out, and I sincerely apologize for the inconvenience you’ve experienced due to the breakdown of the bus for {query}.",
     "To assist you further with {query}, could you please provide your booking reference number or PNR number, along with the email address or phone number?",
     "We need your patience and cooperation in this matter for {query}. Our team is actively working to get updates from the host.",
     "While we understand your request for a refund or alternative ride for {query}, we are currently in the process of resolving the situation.",
     "Please rest assured that we are committed to providing you with the best support possible for {query}.",
     "Thank you for your understanding and cooperation for {query}."] }),
  ("route_details",
   { keywords := ["route details", "bus route"],
     responses := [
     "I regret to inform you that we don’t have the specific route information about the ride for {query}; however, we have the access for the stop locations.",
     "These are the stop locations associated with your existing booking for {query}, available on our website."] }),
  ("change_ticket_date",
   { keywords := ["change ticket date", "reschedule date"],
     responses := [
     "Yes, you can change the date of your journey up to 15 minutes before departure time for {query} via the manage my booking section on our website.",
     "Please note that the prices are dynamic in nature for {query}, and any fare difference will be displayed during the rescheduling process.",
     "If the new fare is lower for {query}, then the difference will be refunded to your original payment method within 7 working days."] }),
  ("route_information",
   { keywords := ["route information", "ride route"],
     responses := [
     "I regret to inform you that we don’t have the route information of the ride for {query}; however, we have the access for the stop location associated with that booking.",
     "If you have already booked the ticket and want to know the route information of your ride for {query}, you may click on the link provided on our website."] }),
  ("flix_lounge",
   { keywords := ["flix lounge", "anand vihar lounge"],
     responses := [
     "Thank you for reaching out to us. We apologize for any confusion, but please note that the Flix Lounge facility is not available at the Anand Vihar location for {query}.",
     "We understand your concern, and we sincerely apologize for any inconvenience caused for {query}. Since the Anand Vihar location doesn't have a Flix Lounge, we suggest waiting at the boarding point."] }),
  ("bus_delay_less_120",
   { keywords := ["delay less than 120", "short delay"],
     responses := [
     "I’m really sorry for the delay of the bus for {query}. I understand this can be frustrating, and I sincerely apologize for the inconvenience caused.",
     "As checked, the bus was delayed due to some operational reasons and traffic issues for {query}.",
     "According to our T&C, we can only offer a refund if the bus is delayed by more than 120 minutes for {query}.",
     "Please let me know if you have any other questions about {query}. We truly appreciate your patience."] }),
  ("bus_delay_more_120",
   { keywords := ["delay more than 120", "long delay"],
     responses := [
     "I sincerely apologize for the delay for {query}. I understand how frustrating this can be.",
     "Upon investigation, I can confirm that the bus is delayed by more than 2 hours for {query} due to operational reasons.",
     "If you prefer not to wait, I can proceed with cancelling your ticket and initiate a refund for {query}.",
     "Your refund has been initiated, and the amount will be credited to your source account within 7 working days for {query}.",
     "Thank you for your understanding and patience with {query}."] }),
  ("bus_breakdown_ac",
   { keywords := ["ac not working", "bus breakdown"],
     responses := [
     "I sincerely apologize for the inconvenience caused due to the bus breakdown and as the AC not working for {query}.",
     "I’ve already highlighted this issue to our team for {query}, and they are working on resolving it as soon as possible.",
     "As the ride has not been cancelled for {query}, I regret to inform you that we cannot process a refund at this moment.",
     "Please stay assured that the team is working hard to address the issue for {query}, and we are here to support you throughout.",
     "Thank you for your understanding and patience with {query}."] }),
  ("luggage_policy",
   { keywords := ["luggage", "baggage"],
     responses := [
     "Thank you for reaching out regarding our luggage policy for {query}.",
     "I’m happy to inform you that you are allowed to bring 7kg of hand luggage and 20kg of regular luggage completely free of charge for {query}.",
     "Additionally, you may bring one extra luggage item of 20kg per passenger for {query}. Since space is limited, we recommend booking your additional luggage early.",
     "For more details, please visit our luggage policy on our website for {query}."] }),
  ("cancel_ticket",
   { keywords := ["cancel ticket", "cancellation refund"],
     responses := [
     "I would like to inform you that you may cancel your ticket for {query} up to 15 minutes before the departure time via our website.",
     "You can cancel it through our website’s ‘Manage My Booking’ section for {query}.",
     "If you choose the voucher option for {query}, the refund amount will be generated in the form of voucher and sent via email.",
     "If you select the option for cash refund for {query}, it will be credited to your source account within 7 working days excluding weekends and holidays.",
     "To know more about our cancellation policy for {query}, please follow the link provided on our website."] }),
  ("stranded_passenger",
   { keywords := ["stranded", "left behind"],
     responses := [
     "We’re very sorry to hear about your situation for {query} and understand how frustrating this must be.",
     "Could you please share your booking reference number, registered email, and phone number so we can look into this for {query}?",
     "Unfortunately, we are unable to offer a refund or arrange an alternative ride in this situation for {query}, as per our company policy.",
     "We kindly request that you make alternative travel arrangements to reach the destination for {query}."] }),
  ("lost_item",
   { keywords := ["lost item", "left behind item"],
     responses := [
     "We’re very sorry to hear that your belongings were left on the bus for {query}.",
     "To assist you in recovering your items for {query}, please fill out our Lost and Found form on our website.",
     "Our team will connect with you as soon as we have any updates for {query}."] }),
  ("travel_with_pet",
   { keywords := ["travel with pet", "pet policy"],
     responses := [
     "Thank you for your inquiry regarding traveling with pets for {query}.",
     "Unfortunately, at this time, we are unable to accommodate pets on our buses for {query}."] }),
  ("prices_discounts",
   { keywords := ["prices", "discounts"],
     responses := [
     "The price shown on your ticket is the final price for {query}. You do not need to pay any further amount.",
     "I apologize, but currently, there are no offers or discounts available for {query}.",
     "I would like to inform you that prices are dynamic in nature and may change on the website with time for {query}.",
     "Please note that our prices are dynamically adjusted based on demand, availability for {query}.",
     "Our pricing structure is designed to reflect real-time demand and availability for {query}."] }),
  ("blanket_service",
   { keywords := ["blanket service", "blankets"],
     responses := [
     "I regret to inform you but as of now we are not providing blankets on board for {query}; however, we recommend our customers to carry one along.",
     "We're pleased to know that blankets and water bottles have been provided for your convenience on all rides for {query}.",
     "For your comfort, we have ensured blankets are available on every ride for {query}.",
     "We're happy to let you know that blankets have been provided for all passengers on each ride for {query}.",
     "To enhance your journey, blankets have been made available on all rides for {query}."] }),
  ("water_bottle_service",
   { keywords := ["water bottle", "water service"],
     responses := [
     "We regret to inform you that, as of now, we do not offer water bottle services on our Flix buses for {query}.",
     "We recommend that passengers bring their own water bottles for their journey for {query}."] }),
  ("washroom_service",
   { keywords := ["washroom", "toilet"],
     responses := [
     "I regret to inform you that as of now, Flix does not provide washroom facilities on the bus for {query}. However, the bus host will take care of comfort breaks."] }),
  ("seat_change",
   { keywords := ["change seat", "seat assignment"],
     responses := [
     "We apologize, but we are unable to change your seat for {query} as it is automatically assigned.",
     "Unfortunately, we cannot change your seat for {query} because seats are auto-assigned.",
     "I'm sorry, but seat changes are not possible for {query} as they are assigned automatically.",
     "Regrettably, we cannot accommodate seat change requests for {query} as seats are auto-assigned.",
     "Please note that seats are automatically assigned by the system for {query}."] }),
  ("shadow_booking",
   { keywords := ["shadow booking", "booking error"],
     responses := [
     "It's sad to hear about the inconvenience caused by {query}. Please provide passenger's full name, email ID, phone number, and a screenshot of the payment transaction.",
     "I apologize for the inconvenience, but I couldn't locate any booking matching the details provided for {query}.",
     "I regret to inform you that I am unable to locate any booking with the provided details for {query}."] }),
  ("no_refund_statement",
   { keywords := ["no refund", "refund denial"],
     responses := [
     "After thoroughly investigating the incident, we found that the bus arrived at the designated boarding point and other passengers successfully boarded the bus for {query}. Unfortunately, we are unable to process a refund."] }),
  ("refund_7_days",
   { keywords := ["refund processing", "refund time"],
     responses := [
     "Your ticket has been cancelled as of today for {query}. It will take up to 7 working days for the amount to be credited back to your account.",
     "We would like to inform you that your ticket has been cancelled for {query}. The refund amount will be processed within 7 working days.",
     "Your ticket has been cancelled for {query}. It will take up to 7 working days for the refund to appear in your account.",
     "We would like to inform you that your ticket was cancelled for {query}. The refund amount will be processed within 7 working days."] }),
  ("refund_tat_crossed",
   { keywords := ["refund not received", "refund delay"],
     responses := [
     "We would like to inform you that the refund has been initiated from our end for {query}. Please check with your bank regarding the status.",
     "This is to notify you that the refund was processed from our side for {query}. Please verify with your bank."] }),
  ("closing",
   { keywords := ["bye", "thank you", "end"],
     responses := [
     "It appears that our communication has paused for {query}. If you require further assistance, please feel free to initiate a new chat session via our support page.",
     "Our communication seems to have temporarily halted for {query}. Should you need additional help, please start a new chat session.",
     "It appears there's a pause in our communication for {query}. If you need more assistance, please begin a new chat session.",
     "Our communication has paused momentarily for {query}. If you require further assistance, please initiate a new chat session.",
     "Thank you for contacting Flix for {query}. Have a great day.",
     "I’m happy to have assisted you with your inquiry for {query}! If you have any other questions, please reach out.",
     "It was a pleasure assisting you today with {query}. If you need further assistance, don't hesitate to contact us.",
     "I'm glad I could help you with your inquiry for {query}. If there's anything else you need, please let me know.",
     "It was my pleasure to assist you with your inquiry for {query}. If you have any more questions, just let me know.",
     "I’m pleased I could assist you today with {query}! Wishing you a fantastic day ahead!"] }),
  ("request_rating",
   { keywords := ["rate", "survey", "feedback"],
     responses := [
     "Looking forward to your valuable feedback towards my response for {query}, the link will be there right after the chat ends.",
     "We appreciate your feedback for {query} and look forward to hearing from you. The option will be available once our chat concludes.",
     "Your feedback towards my response for {query} is important for me! The link will be provided after our conversation ends.",
     "Please do provide me with your valuable feedback for {query}, which will help me to boost my morale and assist other passengers.",
     "I’d love to hear your thoughts for {query}. Your feedback means a lot to me and will inspire me to assist others better.",
     "I did my best to help you with {query}! If you have any feedback, I’d really appreciate it.",
     "Your thoughts mean a lot to me for {query}, so if you have any feedback, please share.",
     "If you found my chat helpful for {query}, I would greatly appreciate it if you could rate your experience via a survey.",
     "We value your feedback for {query} and would love to hear your thoughts. Feel free to share any comments.",
     "I'm pleased that I could assist you with {query}. Your feedback is invaluable to us via a survey after this chat.",
     "I’m happy to have assisted you with {query}. A survey will be sent to gather your insights.",
     "It’s great to know I could assist you with {query}! You’ll receive a survey after our chat to share your thoughts.",
     "It would mean a lot if you could complete the customer satisfaction survey for {query}.",
     "It will be great if you could fill out the customer satisfaction survey for {query}.",
     "Thank you for allowing me to assist you with {query}. A survey link will be sent after our chat.",
     "I am grateful for the opportunity to assist you with {query}. Your feedback via the survey link would mean a great deal."] })
]

/-- The rephrasing skeletons of `generate_new_response`. -/
def newTemplates : List String := [
  "I’m here to assist with {query}. {action}",
  "Thank you for reaching out about {query}. {action}",
  "Regarding your concern with {query}, {action}",
  "I understand your request for {query}. {action}",
  "For {query}, {action}",
  "We appreciate your inquiry about {query}. {action}",
  "To address {query}, {action}"
]

/-! ### Engine state -/

structure TrainingData where
  queries : List String
  cluster_labels : List Int
  generated_responses : List (String × List String)
deriving DecidableEq

structure EngineState where
  training_data : TrainingData
  query_count : Nat
  used_response_sets : List (String × List String)
  response_formats : List String
  query_response_map : List (String × CatInfo)
deriving DecidableEq

/-- `self.num_clusters`. -/
def numClusters : Nat := 10

/-- `self.train_interval`. -/
def trainInterval : Nat := 5

/-- A fresh engine as `__init__` builds it, before `load_training_data`
touches the (absent) data file. -/
def initState : EngineState :=
  { training_data := ⟨[], [], []⟩
    query_count := 0
    used_response_sets := []
    response_formats := responseFormats
    query_response_map := queryResponseMap }

/-! ### Rendering -/

def qSlot : List Char := "{query}".data

def aSlot : List Char := "{action}".data

/-- `t.format(query=query.lower())` as a total replacement of every
`{query}` slot by the lower-cased query text. Faithful to `str.format`
whenever the template's braces are exactly `{query}` slots — which holds
for every statically configured template; on malformed templates (stray
braces, reachable through synthesis appends of brace-carrying query text)
`str.format` raises instead, behavior modelled by `renderTE` below. -/
def renderT (t : String) (q : String) : String :=
  String.mk (replaceL t.data qSlot (lowerL q.data))

/-- `t.format(query=query.lower(), action=action)`. `str.format` substitutes
the two fields simultaneously; for texts that do not themselves contain a
slot (all texts this program builds) the sequential replacement below is
the same string. -/
def renderTA (t : String) (q : String) (a : String) : String :=
  String.mk (replaceL (replaceL t.data qSlot (lowerL q.data)) aSlot a.data)

/-! ### Category router: `CustomAI.get_query_category` -/

/-- The inner keyword loop: `for keyword in info["keywords"]: if keyword in
query_lower: return category`. -/
def findKeyword (keywords : List String) (ql : List Char) : Bool :=
  match keywords with
  | [] => false
  | k :: rest => containsL k.data ql || findKeyword rest ql

/-- `CustomAI.get_query_category`: scan the category table in declaration
order, return the first category one of whose keywords is a substring of the
lower-cased query; `None` when no keyword hits. -/
def getQueryCategory (m : List (String × CatInfo)) (q : String) : Option String :=
  match m with
  | [] => none
  | (cat, info) :: rest =>
    if findKeyword info.keywords (lowerL q.data) then some cat
    else getQueryCategory rest q

/-! ### Key-phrase extraction (the two `re.findall` patterns of
`generate_new_response`) -/

/-- Python's `\w` on the ASCII-plus-typographic-quote texts at hand. -/
def isWordChar (c : Char) : Bool := c.isAlphanum || c == '_'

def isWS (c : Char) : Bool := c.isWhitespace

def classWS (c : Char) : Bool := isWordChar c || isWS c

/-- Case-insensitive prefix test (`re.IGNORECASE`). -/
def isPrefixCI : List Char → List Char → Bool
  | [], _ => true
  | _ :: _, [] => false
  | a :: as, b :: bs => a.toLower == b.toLower && isPrefixCI as bs

/-- One attempt to match `(?:c₁|c₂|…)\s+[\w\s]+(?:\.)` at the head of `s`,
trying the alternation branches in order. The greedy `\s+[\w\s]+` can only
succeed on the maximal run of word-or-space characters (shortening the run
leaves a word-or-space character, never the required dot, as the next
character), so the match is: a connector, then a maximal `[\w\s]` run that
starts with whitespace and has length at least two, then a literal dot.
Returns the matched text and the remainder after it. -/
def tryMatch (conns : List (List Char)) (s : List Char) :
    Option (List Char × List Char) :=
  match conns with
  | [] => none
  | c :: restC =>
    let attempt : Option (List Char × List Char) :=
      if isPrefixCI c s then
        let txt := s.take c.length
        let after := s.drop c.length
        let run := after.takeWhile classWS
        let startsWS := match after.head? with
          | some a => isWS a
          | none => false
        if startsWS && 2 ≤ run.length then
          match after.drop run.length with
          | '.' :: rest2 => some (txt ++ run ++ ['.'], rest2)
          | _ => none
        else none
      else none
    match attempt with
    | some m => some m
    | none => tryMatch restC s

/-- `re.findall`: leftmost, non-overlapping scan. Fuel-bounded; every step
consumes at least one character, so `fuel = s.length` suffices. -/
def scanFuel (conns : List (List Char)) : Nat → List Char → List (List Char)
  | 0, _ => []
  | _ + 1, [] => []
  | fuel + 1, c :: rest =>
    match tryMatch conns (c :: rest) with
    | some (txt, after) => txt :: scanFuel conns fuel after
    | none => scanFuel conns fuel rest

def findAllMatches (conns : List (List Char)) (s : List Char) : List (List Char) :=
  scanFuel conns s.length s

/-- The first pattern's connectors: `(?:for|with|regarding|to|about)`. -/
def connA : List (List Char) :=
  ["for".data, "with".data, "regarding".data, "to".data, "about".data]

/-- The second pattern's connectors: `(?:please|kindly|you can|we recommend)`. -/
def connB : List (List Char) :=
  ["please".data, "kindly".data, "you can".data, "we recommend".data]

/-- Python `p.strip(".")`. -/
def stripDots (s : List Char) : List Char :=
  ((s.dropWhile (· == '.')).reverse.dropWhile (· == '.')).reverse

/-- The `key_phrases` list of `generate_new_response`: for each existing
response, substitute the lower-cased query for `{query}`, then collect the
first pattern's matches and the second pattern's matches, each stripped of
dots, in response order. -/
def extractKeyPhrases (existing : List String) (q : String) : List String :=
  (existing.map (fun resp =>
    let clean := replaceL resp.data qSlot (lowerL q.data)
    ((findAllMatches connA clean).map (fun p => String.mk (stripDots p))) ++
    ((findAllMatches connB clean).map (fun p => String.mk (stripDots p))))).flatten

/-! ### Dynamic response synthesizer: `CustomAI.generate_new_response` -/

/-- The bank the synthesizer draws fragments from: the category's responses
when the category is a key of the map, else the generic format list
(also when the category is `None`). -/
def existingResponsesFor (s : EngineState) (cat : Option String) : List String :=
  match cat with
  | some c =>
    match lookupA s.query_response_map c with
    | some info => info.responses
    | none => s.response_formats
  | none => s.response_formats

/-- `self.training_data["generated_responses"].get(category, [])` when the
category is a key, else `[]`. -/
def generatedLogFor (s : EngineState) (cat : Option String) : List String :=
  match cat with
  | some c =>
    match lookupA s.training_data.generated_responses c with
    | some l => l
    | none => []
  | none => []

/-- The collision set `all_responses` of `generate_new_response`. -/
def allResponsesFor (s : EngineState) (cat : Option String) : List String :=
  existingResponsesFor s cat ++ generatedLogFor s cat

def fallbackAction1 : String := "please refer to our website for further details"

def fallbackAction2 : String := "check our website for more information"

/-- One candidate of `generate_new_response`: an action drawn from the
key-phrase pool (or the given fixed fallback when the pool is empty — no
random value is consumed then, mirroring `random.choice(key_phrases) if
key_phrases else …`), combined with a randomly chosen skeleton template. -/
def synthCandidate (s : EngineState) (q : String) (cat : Option String)
    (fallback : String) (r : List Nat) : String × List Nat :=
  let kp := extractKeyPhrases (existingResponsesFor s cat) q
  let ar := if kp.isEmpty then (fallback, r) else chooseL kp fallback r
  let tr := chooseL newTemplates "" ar.2
  (renderTA tr.1 q ar.1, tr.2)

/-- `CustomAI.generate_new_response`: build a candidate; if it collides with
`all_responses`, build one more candidate (with the second fixed fallback
when the pool is empty) and return it without re-checking. -/
def generateNewResponse (s : EngineState) (q : String) (cat : Option String)
    (r : List Nat) : String × List Nat :=
  let c1 := synthCandidate s q cat fallbackAction1 r
  if (allResponsesFor s cat).contains c1.1 then
    synthCandidate s q cat fallbackAction2 c1.2
  else c1

/-! ### State update helpers -/

/-- `if query not in self.used_response_sets: self.used_response_sets[query] = []`. -/
def ensureUsed (s : EngineState) (q : String) : EngineState :=
  match lookupA s.used_response_sets q with
  | some _ => s
  | none => { s with used_response_sets := s.used_response_sets ++ [(q, [])] }

def usedFor (s : EngineState) (q : String) : List String :=
  match lookupA s.used_response_sets q with
  | some l => l
  | none => []

/-- `self.used_response_sets[query].append(resp)`. -/
def pushUsed (s : EngineState) (q : String) (resp : String) : EngineState :=
  { s with used_response_sets := updAppend s.used_response_sets q resp }

/-- `self.query_response_map[c]["responses"].append(resp)` (the key is
present at every call site). -/
def appendBank (s : EngineState) (c : String) (resp : String) : EngineState :=
  { s with query_response_map :=
      s.query_response_map.map (fun p =>
        if p.1 = c then (p.1, { p.2 with responses := p.2.responses ++ [resp] })
        else p) }

/-- `self.response_formats.append(resp)`. -/
def appendFormats (s : EngineState) (resp : String) : EngineState :=
  { s with response_formats := s.response_formats ++ [resp] }

/-! ### Clustering: `CustomAI.custom_cluster` -/

/-- One assignment pass: each point's label is the index of its nearest
centroid (`np.argmin` over the Euclidean distances; first index on ties). -/
def assignLabels (features : List (List ℚ)) (cents : List (List ℚ)) : List Int :=
  features.map (fun f => (argminIdx (cents.map (fun c => distSq f c)) : Int))

/-- The centroid update: each cluster's centroid becomes the mean of its
assigned points; an empty cluster keeps its centroid. -/
def updateCentroids (features : List (List ℚ)) (labels : List Int)
    (cents : List (List ℚ)) : List (List ℚ) :=
  (List.range numClusters).map (fun (k : Nat) =>
    let pts := (List.range features.length).filterMap (fun i =>
      if labels.getD i (-1) = Int.ofNat k then some (features.getD i []) else none)
    if pts.isEmpty then cents.getD k [] else meanV pts)

/-- The bounded iteration (`max_iterations = 50`): recompute labels, stop at
a fixed point, else update centroids and continue; after the last iteration
the current labels are returned. -/
def kmeansLoop (features : List (List ℚ)) : Nat → List (List ℚ) → List Int → List Int
  | 0, _, labels => labels
  | fuel + 1, cents, labels =>
    let newLabels := assignLabels features cents
    if newLabels = labels then labels
    else kmeansLoop features fuel (updateCentroids features newLabels cents) newLabels

/-- `CustomAI.custom_cluster`: all `-1` when the corpus is smaller than the
cluster count; otherwise seed the centroids at `num_clusters` sampled
corpus points and iterate. -/
def customCluster (features : List (List ℚ)) (r : List Nat) : List Int × List Nat :=
  if features.length < numClusters then
    (List.replicate features.length (-1), r)
  else
    let sr := sampleIdxs numClusters (List.range features.length) r
    let cents := sr.1.map (fun i => features.getD i [])
    (kmeansLoop features 50 cents (List.replicate features.length (-1)), sr.2)

/-! ### `CustomAI.train_model` -/

/-- The conditional `if generated_response and category:` recording (both
must be non-`None` and non-empty, Python truthiness). -/
def recordGenerated (td : TrainingData) (genResp cat : Option String) : TrainingData :=
  match genResp, cat with
  | some g, some c =>
    if g == "" || c == "" then td
    else { td with generated_responses := updAppend td.generated_responses c g }
  | _, _ => td

/-- `CustomAI.train_model`: bump the query counter, append the query with a
`-1` label, record a generated response when both arguments are truthy, and
re-cluster (then persist) when the counter hits the training interval and
the corpus is large enough. The vectorizer's failure path (the
`try/except`, which leaves the labels as appended) is outside this model;
`v` is total. -/
def trainModel (v : String → List ℚ) (s : EngineState) (q : String)
    (genResp cat : Option String) (r : List Nat) : EngineState × List Nat :=
  let td0 := s.training_data
  let td1 := { td0 with
    queries := td0.queries ++ [q]
    cluster_labels := td0.cluster_labels ++ [-1] }
  let td2 := recordGenerated td1 genResp cat
  let s1 := { s with query_count := s.query_count + 1, training_data := td2 }
  if s1.query_count % trainInterval = 0 ∧ numClusters ≤ s1.training_data.queries.length then
    let features := s1.training_data.queries.map v
    let lr := customCluster features r
    ({ s1 with training_data := { s1.training_data with cluster_labels := lr.1 } }, lr.2)
  else (s1, r)

/-! ### Selection: `CustomAI.generate_initial_response` and the identical
per-scope logic inlined in the clustered branch of `generate_response` -/

/-- The filtered template list the selection draws from: the scope's
templates whose rendering is not in the query's used set. -/
def availFormats (templates : List String) (q : String) (used : List String) :
    List String :=
  templates.filter (fun f => !(used.contains (renderT f q)))

/-- The per-scope select-or-synthesize body, shared verbatim (in the source,
duplicated verbatim) between `generate_initial_response` and the clustered
branch: with a truthy category that is a key of the map, filter its bank;
on exhaustion synthesize, append the new response to the bank, log it via
`train_model`, mark it used and return it, else pick a random survivor,
render, mark used, return. With no usable category the same logic runs
against the generic format list (whose synthesis is logged with category
`None`, so `train_model` records nothing). -/
def selectScope (v : String → List ℚ) (s0 : EngineState) (q : String)
    (cat : Option String) (r : List Nat) : String × EngineState × List Nat :=
  let used := usedFor s0 q
  match cat with
  | some c =>
    if c == "" then
      selectGeneric v s0 q used r
    else
      match lookupA s0.query_response_map c with
      | some info =>
        let avail := availFormats info.responses q used
        if avail.isEmpty then
          let nr := generateNewResponse s0 q (some c) r
          let s1 := appendBank s0 c nr.1
          let s2 := trainModel v s1 q (some nr.1) (some c) nr.2
          (nr.1, pushUsed s2.1 q nr.1, s2.2)
        else
          let fr := chooseL avail "" r
          let resp := renderT fr.1 q
          (resp, pushUsed s0 q resp, fr.2)
      | none => selectGeneric v s0 q used r
  | none => selectGeneric v s0 q used r
where
  selectGeneric (v : String → List ℚ) (s0 : EngineState) (q : String)
      (used : List String) (r : List Nat) : String × EngineState × List Nat :=
    let avail := availFormats s0.response_formats q used
    if avail.isEmpty then
      let nr := generateNewResponse s0 q none r
      let s1 := appendFormats s0 nr.1
      let s2 := trainModel v s1 q (some nr.1) none nr.2
      (nr.1, pushUsed s2.1 q nr.1, s2.2)
    else
      let fr := chooseL avail "" r
      let resp := renderT fr.1 q
      (resp, pushUsed s0 q resp, fr.2)

/-- `CustomAI.generate_initial_response`: ensure the query's used set exists,
then run the per-scope selection. -/
def generateInitialResponse (v : String → List ℚ) (s : EngineState) (q : String)
    (cat : Option String) (r : List Nat) : String × EngineState × List Nat :=
  selectScope v (ensureUsed s q) q cat r

/-- The nearest-corpus-entry index the clustered branch computes:
`np.argmin` over the Euclidean distances between the query's vector and
every corpus vector (equal, index for index, to the arg-min over squared
distances). -/
def nearestIdx (qv : List ℚ) (feats : List (List ℚ)) : Nat :=
  argminIdx (feats.map (fun f => distSq qv f))

/-- `CustomAI.generate_response`: record the query via `train_model`, route
it, and either select directly (small corpus) or locate the nearest prior
query, restrict to its cluster, and select using a random cluster-mate's
category. The `except` fallback around the vectorizer (which degrades to
the direct path) is outside this model; `v` is total. -/
def generateResponse (v : String → List ℚ) (s : EngineState) (q : String)
    (r : List Nat) : String × String × EngineState × List Nat :=
  let sr := trainModel v s q none none r
  let s1 := sr.1
  let cat := getQueryCategory s1.query_response_map q
  if s1.training_data.queries.length < numClusters then
    let out := generateInitialResponse v s1 q cat sr.2
    (out.1, "Success", out.2.1, out.2.2)
  else
    let qv := v q
    let feats := s1.training_data.queries.map v
    let best := nearestIdx qv feats
    let bestLabel := s1.training_data.cluster_labels.getD best (-1)
    let clusterIdxs := (List.range s1.training_data.cluster_labels.length).filter
      (fun i => s1.training_data.cluster_labels.getD i (-1) == bestLabel)
    if clusterIdxs.isEmpty then
      let out := generateInitialResponse v s1 q cat sr.2
      (out.1, "Success", out.2.1, out.2.2)
    else
      let s2 := ensureUsed s1 q
      let availQ := (clusterIdxs.map
          (fun i => s2.training_data.queries.getD i "")).filter
        (fun t => !(lowerL t.data == lowerL q.data))
      if availQ.isEmpty then
        let out := generateInitialResponse v s2 q cat sr.2
        (out.1, "Success (clustered)", out.2.1, out.2.2)
      else
        let sq := chooseL availQ "" sr.2
        let simCat := getQueryCategory s2.query_response_map sq.1
        let out := selectScope v s2 q simCat sq.2
        (out.1, "Success (clustered)", out.2.1, out.2.2)

/-! ### Persistence: `save_training_data` / `load_training_data` -/

/-- `CustomAI.save_training_data`: `json.dump(self.training_data, f)` — the
snapshot written to disk is exactly the `training_data` record (queries,
cluster labels, generated responses). `used_response_sets` is a separate
attribute of the engine and is not part of the dump. -/
def saveSnapshot (s : EngineState) : TrainingData := s.training_data

/-- The engine a process restart produces when the data file holds the
given snapshot: `__init__` builds a fresh engine, then
`load_training_data`'s happy path (file present, JSON valid, "queries" and
"cluster_labels" keys present — which `save_training_data` guarantees)
replaces `training_data` with the file's contents. Nothing else is
restored. -/
def loadFromSnapshot (t : TrainingData) : EngineState :=
  { initState with training_data := t }

/-- `load_training_data` invoked on a live engine whose data file holds
the given valid snapshot: only `training_data` is replaced; no length
validation of the two lists is performed. -/
def loadTrainingData (s : EngineState) (t : TrainingData) : EngineState :=
  { s with training_data := t }

/-! ### `str.format` with its failure behavior, and the fallible engine

The selection code renders templates with `f.format(query=query.lower())`
inside list comprehensions and after the choice. `str.format` raises on a
template whose braces are not well-formed replacement fields, and synthesis
appends put fully rendered strings — raw query text included — into the
banks, so malformed templates are reachable. The definitions below re-embed
the selection pipeline with this failure propagated exactly as the source
propagates the exception: out of `generate_initial_response` (no handler
on the small-corpus path), through the clustered branch's `try/except`
(one fallback call on the state and random stream the failed attempt left
behind), and up to the endpoint's catch-all. -/

/-- Python `str.format` field substitution over a template, with `query` as
the single keyword argument: doubled braces are escapes, `{query}`
substitutes the value, and any other replacement field fails — a stray or
unterminated brace is a ValueError, an unknown or empty field name a
KeyError/IndexError (one model message per shape, not CPython's exact
texts; a field carrying a conversion or format specification, which no
template of this repository contains, is also treated as failing).
Fuel-bounded structural recursion; every step consumes at least one
character, so `fuel = s.length` suffices. -/
def pyFormatFuel (v : List Char) : Nat → List Char → Except String (List Char)
  | 0, s => .ok s
  | _ + 1, [] => .ok []
  | fuel + 1, '{' :: '{' :: rest =>
    match pyFormatFuel v fuel rest with
    | .ok out => .ok ('{' :: out)
    | .error e => .error e
  | fuel + 1, '}' :: '}' :: rest =>
    match pyFormatFuel v fuel rest with
    | .ok out => .ok ('}' :: out)
    | .error e => .error e
  | fuel + 1, '{' :: rest =>
    let name := rest.takeWhile (fun c => c ≠ '}')
    match rest.drop name.length with
    | '}' :: rest2 =>
      if name = "query".data then
        match pyFormatFuel v fuel rest2 with
        | .ok out => .ok (v ++ out)
        | .error e => .error e
      else .error "KeyError"
    | _ => .error "Single '\x7b' encountered in format string"
  | _ + 1, '}' :: _ => .error "Single '\x7d' encountered in format string"
  | fuel + 1, c :: rest =>
    match pyFormatFuel v fuel rest with
    | .ok out => .ok (c :: out)
    | .error e => .error e

/-- `t.format(query=query.lower())` with `str.format`'s raising behavior. -/
def renderTE (t q : String) : Except String String :=
  match pyFormatFuel (lowerL q.data) t.data.length t.data with
  | .ok out => .ok (String.mk out)
  | .error e => .error e

/-- The availability comprehension `[f for f in ts if f.format(query=q)
not in used]`: every template of the scope is rendered, in list order, so
the first malformed template raises. -/
def availFormatsE (ts : List String) (q : String) (used : List String) :
    Except String (List String) :=
  match ts with
  | [] => .ok []
  | f :: rest =>
    match renderTE f q with
    | .error e => .error e
    | .ok rf =>
      match availFormatsE rest q used with
      | .error e => .error e
      | .ok l => .ok (if used.contains rf then l else f :: l)

/-- `selectScope` with `str.format`'s failure propagated. A raise escapes
before any used-set append or bank append, so the state returned with an
error is the state at entry to the scope body. -/
def selectScopeE (v : String → List ℚ) (s0 : EngineState) (q : String) :
    Option String → List Nat → Except String String × EngineState × List Nat
  | some c, r =>
    if c == "" then selectGenericE v s0 q (usedFor s0 q) r
    else
      match lookupA s0.query_response_map c with
      | some info =>
        match availFormatsE info.responses q (usedFor s0 q) with
        | .error e => (.error e, s0, r)
        | .ok avail =>
          if avail.isEmpty then
            let nr := generateNewResponse s0 q (some c) r
            let s1 := appendBank s0 c nr.1
            let s2 := trainModel v s1 q (some nr.1) (some c) nr.2
            (.ok nr.1, pushUsed s2.1 q nr.1, s2.2)
          else
            let fr := chooseL avail "" r
            match renderTE fr.1 q with
            | .error e => (.error e, s0, fr.2)
            | .ok resp => (.ok resp, pushUsed s0 q resp, fr.2)
      | none => selectGenericE v s0 q (usedFor s0 q) r
  | none, r => selectGenericE v s0 q (usedFor s0 q) r
where
  selectGenericE (v : String → List ℚ) (s0 : EngineState) (q : String)
      (used : List String) (r : List Nat) :
      Except String String × EngineState × List Nat :=
    match availFormatsE s0.response_formats q used with
    | .error e => (.error e, s0, r)
    | .ok avail =>
      if avail.isEmpty then
        let nr := generateNewResponse s0 q none r
        let s1 := appendFormats s0 nr.1
        let s2 := trainModel v s1 q (some nr.1) none nr.2
        (.ok nr.1, pushUsed s2.1 q nr.1, s2.2)
      else
        let fr := chooseL avail "" r
        match renderTE fr.1 q with
        | .error e => (.error e, s0, fr.2)
        | .ok resp => (.ok resp, pushUsed s0 q resp, fr.2)

def generateInitialResponseE (v : String → List ℚ) (s : EngineState) (q : String)
    (cat : Option String) (r : List Nat) :
    Except String String × EngineState × List Nat :=
  selectScopeE v (ensureUsed s q) q cat r

/-- `generate_response` with the failure behavior: the small-corpus path is
not inside the `try`, so its exception propagates to the caller; in the
clustered branch the `try/except` catches the first failure and makes one
more `generate_initial_response` call (status `"Model error: ..."`) on the
state and random stream the failed attempt left behind, and that fallback's
own failure propagates. -/
def generateResponseE (v : String → List ℚ) (s : EngineState) (q : String)
    (r : List Nat) : Except String (String × String) × EngineState × List Nat :=
  let sr := trainModel v s q none none r
  let s1 := sr.1
  let cat := getQueryCategory s1.query_response_map q
  if s1.training_data.queries.length < numClusters then
    let out := generateInitialResponseE v s1 q cat sr.2
    (out.1.map (fun resp => (resp, "Success")), out.2.1, out.2.2)
  else
    let qv := v q
    let feats := s1.training_data.queries.map v
    let best := nearestIdx qv feats
    let bestLabel := s1.training_data.cluster_labels.getD best (-1)
    let clusterIdxs := (List.range s1.training_data.cluster_labels.length).filter
      (fun i => s1.training_data.cluster_labels.getD i (-1) == bestLabel)
    let tried : Except String (String × String) × EngineState × List Nat :=
      if clusterIdxs.isEmpty then
        let out := generateInitialResponseE v s1 q cat sr.2
        (out.1.map (fun resp => (resp, "Success")), out.2.1, out.2.2)
      else
        let s2 := ensureUsed s1 q
        let availQ := (clusterIdxs.map
            (fun i => s2.training_data.queries.getD i "")).filter
          (fun t => !(lowerL t.data == lowerL q.data))
        if availQ.isEmpty then
          let out := generateInitialResponseE v s2 q cat sr.2
          (out.1.map (fun resp => (resp, "Success (clustered)")), out.2.1, out.2.2)
        else
          let sq := chooseL availQ "" sr.2
          let simCat := getQueryCategory s2.query_response_map sq.1
          let out := selectScopeE v s2 q simCat sq.2
          (out.1.map (fun resp => (resp, "Success (clustered)")), out.2.1, out.2.2)
    match tried.1 with
    | .ok rs => (.ok rs, tried.2.1, tried.2.2)
    | .error e =>
      let out2 := generateInitialResponseE v tried.2.1 q cat tried.2.2
      (out2.1.map (fun resp => (resp, "Model error: " ++ e)), out2.2.1, out2.2.2)

/-! ### The HTTP endpoint `POST /generate-response` -/

/-- The endpoint handler with both of its error paths: strip the query and
reject the empty result with the 400-error before the engine is touched
(state returned unchanged); otherwise run the engine on the stripped query,
and turn an engine exception into the catch-all 500 with the failure
message attached — the module-level engine keeps the state the failed
request mutated. Python `str.strip()` is modelled by `trimL`. -/
def endpointModelE (v : String → List ℚ) (s : EngineState) (raw : String)
    (r : List Nat) : Except String (String × String) × EngineState :=
  let q := String.mk (trimL raw.data)
  if q = "" then (Except.error "Query cannot be empty", s)
  else
    let out := generateResponseE v s q r
    match out.1 with
    | .ok rs => (.ok rs, out.2.1)
    | .error e => (.error ("Internal error: " ++ e), out.2.1)

/-- Every template the engine can render during a selection: the generic
format list and every category bank of the state. -/
def allTemplates (s : EngineState) : List String :=
  s.response_formats ++ (s.query_response_map.map (fun p => p.2.responses)).flatten


/-! ### Spec-side definition for the nearest-history claim -/

/-- Modelled from the spec: "compute cosine similarity between the new
query's TF-IDF vector and every corpus vector; take the arg-max". sklearn's
TF-IDF rows are L2-normalized, so every vector at hand is a unit vector or
the zero vector; on such vectors the cosine similarity is exactly the dot
product, taking the conventional similarity 0 for a zero vector. -/
def cosineNearestIdx (qv : List ℚ) (feats : List (List ℚ)) : Nat :=
  argmaxIdx (feats.map (fun f => dotQ qv f))

/-! ### Engine-level operation sequences (for the corpus/label invariant) -/

/-- The length invariant I3: the corpus query list and the cluster-label
list have identical length. -/
def I3 (s : EngineState) : Prop :=
  s.training_data.queries.length = s.training_data.cluster_labels.length

/-- A snapshot shaped as the spec's data model prescribes: the label list
has the same length as the query list. -/
def wfSnap (t : TrainingData) : Prop :=
  t.queries.length = t.cluster_labels.length

/-- The operations a running engine undergoes: handling one request (which
records the query, may re-cluster, and may synthesize and log a response)
and re-loading a snapshot file. -/
inductive EngOp where
  | req (q : String) (r : List Nat)
  | load (t : TrainingData)

def applyOp (v : String → List ℚ) (s : EngineState) : EngOp → EngineState
  | .req q r => (generateResponse v s q r).2.2.1
  | .load t => loadTrainingData s t

def runOps (v : String → List ℚ) (s : EngineState) : List EngOp → EngineState
  | [] => s
  | op :: rest => runOps v (applyOp v s op) rest

/-- The filtered list the per-scope selection draws from, phrased over the
pre-call state: the truthy-and-present category's bank, else the generic
format list, filtered by the query's used set. -/
def initialAvail (s : EngineState) (q : String) (cat : Option String) : List String :=
  match cat with
  | some c =>
    if c == "" then availFormats s.response_formats q (usedFor s q)
    else
      match lookupA s.query_response_map c with
      | some info => availFormats info.responses q (usedFor s q)
      | none => availFormats s.response_formats q (usedFor s q)
  | none => availFormats s.response_formats q (usedFor s q)

/-! ### Concrete demonstration states and runs -/

/-- A vectorizer stand-in for runs that never reach the clustered branch
(corpus smaller than the cluster count): its value is irrelevant there. -/
def v0 : String → List ℚ := fun _ => []

/-- One request "Hello" against a fresh engine, selection index 0. -/
def demoRun1 : String × String × EngineState × List Nat :=
  generateResponse v0 initState "Hello" [0]

def demoS1 : EngineState := demoRun1.2.2.1

def greetingInfo : CatInfo :=
  { keywords := ["hello", "hi", "help"]
    responses := [
     "Hello and welcome to Flix! I’m here to assist with {query}.",
     "Greetings and welcome to Flix. How may I help with {query}?",
     "Welcome to Flix! My name is here to assist with {query}.",
     "Hi, Welcome to Flix, I am here to assist with {query}.",
     "I appreciate that you have reached out to us with your query about {query}.",
     "Thank you for reaching out with your inquiry about {query}.",
     "I am grateful that you contacted us regarding your concern about {query}.",
     "I appreciate that you are reporting to us about this concern: {query}. I will look into it immediately."] }

/-- Two requests "washroom" against a fresh engine: the single-template
`washroom_service` bank is exhausted by the first, so the second synthesizes
and appends a new template. -/
def washRun1 : String × String × EngineState × List Nat :=
  generateResponse v0 initState "washroom" [0]

def washRun2 : String × String × EngineState × List Nat :=
  generateResponse v0 washRun1.2.2.1 "washroom" [0, 0]

/-- Two already-rendered strings with no periods (so the key-phrase
patterns match nothing in them) that coincide with the synthesizer's two
fallback candidates for query "q" under skeleton index 4. -/
def s1d : String := "For q, please refer to our website for further details"

def s2d : String := "For q, check our website for more information"

/-- A state whose category "c" bank holds exactly the two fallback
candidates and whose used set for "q" already covers both renderings, so a
request for "q" exhausts the bank and synthesizes. -/
def dupState : EngineState :=
  { training_data := ⟨[], [], []⟩
    query_count := 0
    used_response_sets := [("q", [s1d, s2d])]
    response_formats := responseFormats
    query_response_map := [("c", ⟨["q"], [s1d, s2d]⟩)] }

def dupRun : String × EngineState × List Nat :=
  generateInitialResponse v0 dupState "q" (some "c") [4, 4]

/-- The `i`-th standard basis vector of dimension 10. -/
def basisVec (i : Nat) : List ℚ :=
  (List.range 10).map (fun j => if j = i then 1 else 0)

/-- A vector distinct from every basis vector, assigned to every corpus
entry outside h1..h8 (in particular to the duplicated query "qq0"). -/
def ewVec : List ℚ := [0, 0, 0, 0, 0, 0, 0, 0, 1, 1]

def vb : String → List ℚ := fun t =>
  if t = "h1" then basisVec 0 else if t = "h2" then basisVec 1
  else if t = "h3" then basisVec 2 else if t = "h4" then basisVec 3
  else if t = "h5" then basisVec 4 else if t = "h6" then basisVec 5
  else if t = "h7" then basisVec 6 else if t = "h8" then basisVec 7
  else ewVec

/-- Eight prior queries, query counter at 3, and the single-template bank
of category "c" already exhausted for query "qq0": handling "qq0" takes the
small-corpus path (9 < 10 after the first append), synthesizes, and the
second corpus append lands exactly on a training-interval boundary with a
corpus of 10, so the re-clustering pass runs. -/
def cState : EngineState :=
  { training_data := ⟨["h1", "h2", "h3", "h4", "h5", "h6", "h7", "h8"],
      [-1, -1, -1, -1, -1, -1, -1, -1], []⟩
    query_count := 3
    used_response_sets := [("qq0", ["Resp qq0."])]
    response_formats := responseFormats
    query_response_map := [("c", ⟨["qq"], ["Resp {query}."]⟩)] }

/-- The stream: one draw for the synthesizer's skeleton, then ten draws
(all zero: always pick the first remaining candidate, so the sample is
0,1,…,9) for the centroid seeding. -/
def cRun : String × String × EngineState × List Nat :=
  generateResponse vb cState "qq0" [0, 0, 0, 0, 0, 0, 0, 0, 0, 0, 0]

/-- A query carrying a stray opening brace in its raw text. -/
def brq : String := "washroom \x7b"

/-- Three consecutive requests against a fresh engine through the full
endpoint: the brace query twice — the second exhausts the single-template
`washroom_service` bank, and synthesis appends a rendered string carrying
the stray brace to the bank — then the plain query "washroom". -/
def eRun1 : Except String (String × String) × EngineState :=
  endpointModelE v0 initState brq [0]

def eRun2 : Except String (String × String) × EngineState :=
  endpointModelE v0 eRun1.2 brq [0, 0]

def eRun3 : Except String (String × String) × EngineState :=
  endpointModelE v0 eRun2.2 "washroom" [0]

set_option maxRecDepth 10000

/-! ### Helper lemmas -/

theorem mem_availFormats_not_used (ts : List String) (q : String)
    (used : List String) (x : String) (hx : x ∈ availFormats ts q used) :
    renderT x q ∉ used := by
  unfold availFormats at hx
  have h2 := (List.mem_filter.mp hx).2
  simpa using h2

theorem chooseL_fst_mem {α : Type} (l : List α) (d : α) (r : List Nat) (h : l ≠ []) :
    (chooseL l d r).1 ∈ l := by
  have hlt : (draw r).1 % l.length < l.length :=
    Nat.mod_lt _ (List.length_pos.mpr h)
  unfold chooseL
  dsimp only
  rw [List.getD_eq_getElem l d hlt]
  exact List.getElem_mem hlt

theorem lookupA_append_of_none {α : Type} (m m' : List (String × α)) (k : String)
    (h : lookupA m k = none) : lookupA (m ++ m') k = lookupA m' k := by
  induction m with
  | nil => rfl
  | cons p rest ih =>
    obtain ⟨k', v⟩ := p
    rw [List.cons_append]
    simp only [lookupA] at h ⊢
    by_cases hk : k' = k
    · rw [if_pos hk] at h
      cases h
    · rw [if_neg hk] at h ⊢
      exact ih h

theorem ensureUsed_training_data (s : EngineState) (q : String) :
    (ensureUsed s q).training_data = s.training_data := by
  unfold ensureUsed
  split <;> rfl

theorem ensureUsed_map (s : EngineState) (q : String) :
    (ensureUsed s q).query_response_map = s.query_response_map := by
  unfold ensureUsed
  split <;> rfl

theorem ensureUsed_formats (s : EngineState) (q : String) :
    (ensureUsed s q).response_formats = s.response_formats := by
  unfold ensureUsed
  split <;> rfl

theorem ensureUsed_count (s : EngineState) (q : String) :
    (ensureUsed s q).query_count = s.query_count := by
  unfold ensureUsed
  split <;> rfl

theorem usedFor_ensureUsed (s : EngineState) (q : String) :
    usedFor (ensureUsed s q) q = usedFor s q := by
  unfold ensureUsed usedFor
  cases h : lookupA s.used_response_sets q with
  | some l => simp [h]
  | none => simp [h, lookupA_append_of_none _ _ _ h, lookupA]

theorem recordGenerated_queries (td : TrainingData) (g c : Option String) :
    (recordGenerated td g c).queries = td.queries := by
  unfold recordGenerated
  cases g <;> cases c <;> simp only []
  split <;> rfl

theorem recordGenerated_labels (td : TrainingData) (g c : Option String) :
    (recordGenerated td g c).cluster_labels = td.cluster_labels := by
  unfold recordGenerated
  cases g <;> cases c <;> simp only []
  split <;> rfl

theorem trainModel_queries (v : String → List ℚ) (s : EngineState) (q : String)
    (g c : Option String) (r : List Nat) :
    (trainModel v s q g c r).1.training_data.queries =
      s.training_data.queries ++ [q] := by
  unfold trainModel
  dsimp only
  split <;> simp [recordGenerated_queries]

theorem trainModel_count (v : String → List ℚ) (s : EngineState) (q : String)
    (g c : Option String) (r : List Nat) :
    (trainModel v s q g c r).1.query_count = s.query_count + 1 := by
  unfold trainModel
  dsimp only
  split <;> rfl

theorem trainModel_map (v : String → List ℚ) (s : EngineState) (q : String)
    (g c : Option String) (r : List Nat) :
    (trainModel v s q g c r).1.query_response_map = s.query_response_map := by
  unfold trainModel
  dsimp only
  split <;> rfl

theorem trainModel_used (v : String → List ℚ) (s : EngineState) (q : String)
    (g c : Option String) (r : List Nat) :
    (trainModel v s q g c r).1.used_response_sets = s.used_response_sets := by
  unfold trainModel
  dsimp only
  split <;> rfl

theorem assignLabels_length (f cents : List (List ℚ)) :
    (assignLabels f cents).length = f.length := by
  unfold assignLabels
  exact List.length_map ..

theorem kmeansLoop_length (f : List (List ℚ)) (fuel : Nat) :
    ∀ (cents : List (List ℚ)) (labels : List Int),
      labels.length = f.length → (kmeansLoop f fuel cents labels).length = f.length := by
  induction fuel with
  | zero => intro cents labels h; exact h
  | succ n ih =>
    intro cents labels h
    unfold kmeansLoop
    dsimp only
    split
    · exact h
    · exact ih _ _ (assignLabels_length f cents)

theorem customCluster_length (f : List (List ℚ)) (r : List Nat) :
    ((customCluster f r).1).length = f.length := by
  unfold customCluster
  split
  · simp
  · exact kmeansLoop_length f 50 _ _ (List.length_replicate ..)

theorem trainModel_I3 (v : String → List ℚ) (s : EngineState) (q : String)
    (g c : Option String) (r : List Nat) (h : I3 s) :
    I3 (trainModel v s q g c r).1 := by
  unfold I3 trainModel
  dsimp only
  split
  · simp [customCluster_length, recordGenerated_queries]
  · simp only [recordGenerated_queries, recordGenerated_labels, List.length_append,
      List.length_cons, List.length_nil]
    exact congrArg (· + 1) h

theorem trainModel_labels_no_retrain (v : String → List ℚ) (s : EngineState)
    (q : String) (g c : Option String) (r : List Nat)
    (h : ¬((s.query_count + 1) % trainInterval = 0 ∧
          numClusters ≤ s.training_data.queries.length + 1)) :
    (trainModel v s q g c r).1.training_data.cluster_labels =
      s.training_data.cluster_labels ++ [-1] := by
  unfold trainModel
  dsimp only
  rw [if_neg]
  · simp [recordGenerated_labels]
  · simpa [recordGenerated_queries] using h

theorem pushUsed_training_data (s : EngineState) (q x : String) :
    (pushUsed s q x).training_data = s.training_data := rfl

theorem appendBank_training_data (s : EngineState) (c x : String) :
    (appendBank s c x).training_data = s.training_data := rfl

theorem appendFormats_training_data (s : EngineState) (x : String) :
    (appendFormats s x).training_data = s.training_data := rfl

theorem I3_of_training_data_eq {s t : EngineState}
    (h : s.training_data = t.training_data) (ht : I3 t) : I3 s := by
  unfold I3 at ht ⊢
  rw [h]
  exact ht

theorem selectGeneric_I3 (v : String → List ℚ) (s0 : EngineState) (q : String)
    (used : List String) (r : List Nat) (h : I3 s0) :
    I3 (selectScope.selectGeneric v s0 q used r).2.1 := by
  unfold selectScope.selectGeneric
  dsimp only
  split
  · exact I3_of_training_data_eq (pushUsed_training_data ..)
      (trainModel_I3 _ _ _ _ _ _ (I3_of_training_data_eq (appendFormats_training_data ..) h))
  · exact I3_of_training_data_eq (pushUsed_training_data ..) h

theorem selectScope_I3 (v : String → List ℚ) (s0 : EngineState) (q : String)
    (cat : Option String) (r : List Nat) (h : I3 s0) :
    I3 (selectScope v s0 q cat r).2.1 := by
  unfold selectScope
  cases cat with
  | none => exact selectGeneric_I3 v s0 q _ r h
  | some c =>
    dsimp only
    split
    · exact selectGeneric_I3 v s0 q _ r h
    · cases hl : lookupA s0.query_response_map c with
      | none => exact selectGeneric_I3 v s0 q _ r h
      | some info =>
        dsimp only
        split
        · exact I3_of_training_data_eq (pushUsed_training_data ..)
            (trainModel_I3 _ _ _ _ _ _
              (I3_of_training_data_eq (appendBank_training_data ..) h))
        · exact I3_of_training_data_eq (pushUsed_training_data ..) h

theorem generateInitialResponse_I3 (v : String → List ℚ) (s : EngineState)
    (q : String) (cat : Option String) (r : List Nat) (h : I3 s) :
    I3 (generateInitialResponse v s q cat r).2.1 := by
  unfold generateInitialResponse
  exact selectScope_I3 v _ q cat r
    (I3_of_training_data_eq (ensureUsed_training_data ..) h)

theorem generateResponse_I3 (v : String → List ℚ) (s : EngineState) (q : String)
    (r : List Nat) (h : I3 s) :
    I3 (generateResponse v s q r).2.2.1 := by
  unfold generateResponse
  dsimp only
  have h1 : I3 (trainModel v s q none none r).1 := trainModel_I3 v s q none none r h
  split
  · exact generateInitialResponse_I3 _ _ _ _ _ h1
  · split
    · exact generateInitialResponse_I3 _ _ _ _ _ h1
    · split
      · exact generateInitialResponse_I3 _ _ _ _ _
          (I3_of_training_data_eq (ensureUsed_training_data ..) h1)
      · exact selectScope_I3 _ _ _ _ _
          (I3_of_training_data_eq (ensureUsed_training_data ..) h1)

theorem runOps_I3 (v : String → List ℚ) (ops : List EngOp) :
    ∀ s : EngineState, I3 s → (∀ t : TrainingData, EngOp.load t ∈ ops → wfSnap t) →
      I3 (runOps v s ops) := by
  induction ops with
  | nil => intro s h _; exact h
  | cons op rest ih =>
    intro s h hwf
    unfold runOps
    apply ih
    · cases op with
      | req q r => exact generateResponse_I3 v s q r h
      | load t =>
        have hw := hwf t (List.mem_cons_self ..)
        simp only [applyOp]
        unfold I3 loadTrainingData
        exact hw
    · intro t ht
      exact hwf t (List.mem_cons_of_mem _ ht)

theorem dotQ_cons (a b : ℚ) (as bs : List ℚ) :
    dotQ (a :: as) (b :: bs) = a * b + dotQ as bs := rfl

theorem distSq_cons (a b : ℚ) (as bs : List ℚ) :
    distSq (a :: as) (b :: bs) = (a - b) * (a - b) + distSq as bs := rfl

/-- For equal-dimension vectors, the squared Euclidean distance is
`‖u‖² + ‖w‖² − 2⟨u,w⟩`. -/
theorem distSq_expand : ∀ (u w : List ℚ), u.length = w.length →
    distSq u w = normSq u + normSq w - 2 * dotQ u w := by
  intro u
  induction u with
  | nil =>
    intro w hw
    cases w with
    | nil => simp [distSq, normSq, dotQ]
    | cons b bs => cases hw
  | cons a as ih =>
    intro w hw
    cases w with
    | nil => cases hw
    | cons b bs =>
      have hw' : as.length = bs.length := by
        simpa using hw
      rw [distSq_cons, ih bs hw']
      show _ = dotQ (a :: as) (a :: as) + dotQ (b :: bs) (b :: bs) - 2 * dotQ (a :: as) (b :: bs)
      rw [dotQ_cons, dotQ_cons, dotQ_cons]
      unfold normSq
      ring

/-- The arg-min of an affinely decreasing image (`x ↦ c − a·x`, `a > 0`) is
the arg-max of the original list, first-occurrence tie-breaking included:
value and index both transform as expected. -/
theorem argminP_map_affine (a c : ℚ) (ha : 0 < a) :
    ∀ l : List ℚ, l ≠ [] →
      argminP (l.map (fun x => c - a * x)) = (c - a * (argmaxP l).1, (argmaxP l).2) := by
  intro l
  induction l with
  | nil => intro h; exact absurd rfl h
  | cons x xs ih =>
    intro _
    cases xs with
    | nil => simp [argminP, argmaxP]
    | cons y rest =>
      have hne : (y :: rest : List ℚ) ≠ [] := by simp
      have ihh := ih hne
      rcases hP : argmaxP (y :: rest) with ⟨M, J⟩
      rw [hP] at ihh
      have hmin : argminP ((x :: y :: rest).map (fun x => c - a * x)) =
          (let mj := argminP ((y :: rest).map (fun x => c - a * x));
           if c - a * x ≤ mj.1 then (c - a * x, 0) else (mj.1, mj.2 + 1)) := by
        simp only [List.map_cons]
        rfl
      have hmax : argmaxP (x :: y :: rest) =
          (let mj := argmaxP (y :: rest);
           if x < mj.1 then (mj.1, mj.2 + 1) else (x, 0)) := rfl
      rw [hmin, hmax, hP, ihh]
      dsimp only
      by_cases hxM : x < M
      · have hcond : ¬(c - a * x ≤ c - a * M) := by
          rw [sub_le_sub_iff_left, mul_le_mul_left ha]
          exact not_le.mpr hxM
        rw [if_neg hcond, if_pos hxM]
      · have hcond : c - a * x ≤ c - a * M := by
          rw [sub_le_sub_iff_left, mul_le_mul_left ha]
          exact not_lt.mp hxM
        rw [if_pos hcond, if_neg hxM]

theorem argminIdx_map_affine (a c : ℚ) (ha : 0 < a) (l : List ℚ) :
    argminIdx (l.map (fun x => c - a * x)) = argmaxIdx l := by
  cases l with
  | nil => rfl
  | cons x xs =>
    unfold argminIdx argmaxIdx
    rw [argminP_map_affine a c ha (x :: xs) (by simp)]

theorem findKeyword_eq_any (ks : List String) (ql : List Char) :
    findKeyword ks ql = ks.any (fun k => containsL k.data ql) := by
  induction ks with
  | nil => rfl
  | cons k rest ih => simp [findKeyword, ih]

theorem getQueryCategory_eq_find? (m : List (String × CatInfo)) (q : String) :
    getQueryCategory m q =
      (m.find? (fun p =>
        p.2.keywords.any (fun k => containsL k.data (lowerL q.data)))).map Prod.fst := by
  induction m with
  | nil => rfl
  | cons p rest ih =>
    obtain ⟨cat, info⟩ := p
    simp only [getQueryCategory, List.find?, findKeyword_eq_any]
    cases hb : info.keywords.any (fun k => containsL k.data (lowerL q.data)) with
    | true => simp [hb]
    | false => simpa [hb] using ih

theorem appendBank_count (s : EngineState) (c x : String) :
    (appendBank s c x).query_count = s.query_count := rfl

theorem appendFormats_count (s : EngineState) (x : String) :
    (appendFormats s x).query_count = s.query_count := rfl

theorem initialAvail_ensureUsed (s : EngineState) (q : String) (cat : Option String) :
    initialAvail (ensureUsed s q) q cat = initialAvail s q cat := by
  unfold initialAvail
  cases cat with
  | none => rw [ensureUsed_formats, usedFor_ensureUsed]
  | some c =>
    dsimp only
    rw [ensureUsed_map, ensureUsed_formats, usedFor_ensureUsed]

theorem selectGeneric_td_not_exhausted (v : String → List ℚ) (s0 : EngineState)
    (q : String) (used : List String) (r : List Nat)
    (hne : availFormats s0.response_formats q used ≠ []) :
    (selectScope.selectGeneric v s0 q used r).2.1.training_data = s0.training_data := by
  unfold selectScope.selectGeneric
  dsimp only
  cases h : (availFormats s0.response_formats q used).isEmpty with
  | true => exact absurd (List.isEmpty_iff.mp h) hne
  | false => rfl

theorem selectGeneric_td_exhausted (v : String → List ℚ) (s0 : EngineState)
    (q : String) (used : List String) (r : List Nat)
    (hex : availFormats s0.response_formats q used = []) :
    (selectScope.selectGeneric v s0 q used r).2.1.training_data.queries =
      s0.training_data.queries ++ [q] ∧
    (¬((s0.query_count + 1) % trainInterval = 0 ∧
        numClusters ≤ s0.training_data.queries.length + 1) →
      (selectScope.selectGeneric v s0 q used r).2.1.training_data.cluster_labels =
        s0.training_data.cluster_labels ++ [-1]) := by
  unfold selectScope.selectGeneric
  dsimp only
  rw [hex]
  dsimp only [List.isEmpty_nil]
  rw [if_pos rfl]
  constructor
  · rw [pushUsed_training_data, trainModel_queries]
    rfl
  · intro h
    rw [pushUsed_training_data]
    have h2 : ¬(((appendFormats s0 (generateNewResponse s0 q none r).1).query_count + 1) %
          trainInterval = 0 ∧
        numClusters ≤
          (appendFormats s0
              (generateNewResponse s0 q none r).1).training_data.queries.length + 1) := h
    rw [trainModel_labels_no_retrain _ _ _ _ _ _ h2]
    rfl

theorem selectScope_td_not_exhausted (v : String → List ℚ) (s0 : EngineState)
    (q : String) (cat : Option String) (r : List Nat)
    (hne : initialAvail s0 q cat ≠ []) :
    (selectScope v s0 q cat r).2.1.training_data = s0.training_data := by
  unfold selectScope
  unfold initialAvail at hne
  cases cat with
  | none => exact selectGeneric_td_not_exhausted v s0 q _ r hne
  | some c =>
    dsimp only at hne ⊢
    by_cases hce : (c == "") = true
    · rw [if_pos hce] at hne ⊢
      exact selectGeneric_td_not_exhausted v s0 q _ r hne
    · rw [if_neg hce] at hne ⊢
      cases hl : lookupA s0.query_response_map c with
      | none =>
        rw [hl] at hne
        dsimp only at hne ⊢
        exact selectGeneric_td_not_exhausted v s0 q _ r hne
      | some info =>
        rw [hl] at hne
        dsimp only at hne ⊢
        cases h : (availFormats info.responses q (usedFor s0 q)).isEmpty with
        | true => exact absurd (List.isEmpty_iff.mp h) hne
        | false =>
          rw [if_neg (by simp [h])]
          rfl

theorem selectScope_td_exhausted (v : String → List ℚ) (s0 : EngineState)
    (q : String) (cat : Option String) (r : List Nat)
    (hex : initialAvail s0 q cat = []) :
    (selectScope v s0 q cat r).2.1.training_data.queries =
      s0.training_data.queries ++ [q] ∧
    (¬((s0.query_count + 1) % trainInterval = 0 ∧
        numClusters ≤ s0.training_data.queries.length + 1) →
      (selectScope v s0 q cat r).2.1.training_data.cluster_labels =
        s0.training_data.cluster_labels ++ [-1]) := by
  unfold selectScope
  unfold initialAvail at hex
  cases cat with
  | none => exact selectGeneric_td_exhausted v s0 q _ r hex
  | some c =>
    dsimp only at hex ⊢
    by_cases hce : (c == "") = true
    · rw [if_pos hce] at hex ⊢
      exact selectGeneric_td_exhausted v s0 q _ r hex
    · rw [if_neg hce] at hex ⊢
      cases hl : lookupA s0.query_response_map c with
      | none =>
        rw [hl] at hex
        dsimp only at hex ⊢
        exact selectGeneric_td_exhausted v s0 q _ r hex
      | some info =>
        rw [hl] at hex
        dsimp only at hex ⊢
        rw [hex]
        dsimp only [List.isEmpty_nil]
        rw [if_pos rfl]
        constructor
        · rw [pushUsed_training_data, trainModel_queries]
          rfl
        · intro h
          rw [pushUsed_training_data]
          have h2 : ¬(((appendBank s0 c (generateNewResponse s0 q (some c) r).1).query_count + 1) %
                trainInterval = 0 ∧
              numClusters ≤
                (appendBank s0 c
                    (generateNewResponse s0 q (some c) r).1).training_data.queries.length + 1) := h
          rw [trainModel_labels_no_retrain _ _ _ _ _ _ h2]
          rfl

/-! ### Claim C1 -/

/-- C1 counterexample: two requests with different raw query texts ("Hello"
and "hello"), both routed to the category "greeting", receive the identical
rendered response string. The engine's `used_response_sets` is keyed by the
raw query text, not by category, so the second request's dedup set is fresh
and the same bank template (index 0) renders to the same string: there is no
persistent per-category used-response set, and the claimed invariant fails. -/
theorem sameRenderedResponseForTwoQueryTexts :
    ("Hello" : String) ≠ "hello" ∧
    getQueryCategory initState.query_response_map "Hello" = some "greeting" ∧
    getQueryCategory demoS1.query_response_map "hello" = some "greeting" ∧
    (generateResponse v0 demoS1 "hello" [0]).1 = demoRun1.1 := by
  decide

/-- C1 amended: the deduplication the code does enforce is per raw query
text (session scope): when the resolved category bank still has an unused
template for this query text, the selected rendered response is never one
already recorded in that query text's used set. -/
theorem selection_avoids_query_used_set (v : String → List ℚ) (s : EngineState)
    (q c : String) (info : CatInfo) (r : List Nat)
    (hc : lookupA s.query_response_map c = some info)
    (hne : c ≠ "")
    (hav : availFormats info.responses q (usedFor s q) ≠ []) :
    (generateInitialResponse v s q (some c) r).1 ∉ usedFor s q := by
  unfold generateInitialResponse selectScope
  dsimp only
  have hce : ¬((c == "") = true) := by simpa using hne
  rw [if_neg hce, ensureUsed_map, hc]
  dsimp only
  rw [usedFor_ensureUsed]
  cases h : (availFormats info.responses q (usedFor s q)).isEmpty with
  | true => exact absurd (List.isEmpty_iff.mp h) hav
  | false =>
    rw [if_neg (by simp [h])]
    exact mem_availFormats_not_used info.responses q (usedFor s q) _
      (chooseL_fst_mem (availFormats info.responses q (usedFor s q)) "" r hav)

theorem selection_avoids_query_used_set_witness :
    (generateInitialResponse v0 initState "hello" (some "greeting") [0]).1
      ∉ usedFor initState "hello" :=
  selection_avoids_query_used_set v0 initState "hello" "greeting" greetingInfo [0]
    (by decide) (by decide) (by decide)

/-! ### Claim C2 -/

/-- C2 counterexample: the nearest-history lookup of `generate_response`
takes the Euclidean-distance arg-min (`nearestIdx`), not the cosine arg-max
the spec describes, and the two disagree on reachable vectors: against the
corpus `[[0,0], [5/13,12/13]]` (a zero row arises from a prior query made
of English stop words only, a unit row from any other prior query), the
unit query vector `[1,0]` is Euclidean-nearest to the zero vector (distance
1 versus √(16/13)), while its cosine arg-max is the unit vector (similarity
5/13 versus 0). -/
theorem euclidArgminNeCosineArgmax :
    nearestIdx [1, 0] [[0, 0], [(5 : ℚ)/13, 12/13]] = 0 ∧
    cosineNearestIdx [1, 0] [[0, 0], [(5 : ℚ)/13, 12/13]] = 1 ∧
    nearestIdx [1, 0] [[0, 0], [(5 : ℚ)/13, 12/13]] ≠
      cosineNearestIdx [1, 0] [[0, 0], [(5 : ℚ)/13, 12/13]] := by
  with_unfolding_all decide

/-- C2 amended: the code computes the Euclidean-distance arg-min over the
corpus vectors; when the query vector and every corpus vector is
unit-normalized (the generic situation for sklearn's L2-normalized TF-IDF
rows when no row degenerates to zero), that arg-min coincides, ties and
all, with the cosine-similarity arg-max the spec describes, because
`‖q−f‖² = 2 − 2⟨q,f⟩` is affinely decreasing in the cosine. -/
theorem nearestIdx_eq_cosine_on_unit_vectors (qv : List ℚ) (feats : List (List ℚ))
    (hq : normSq qv = 1)
    (hlen : ∀ u ∈ feats, u.length = qv.length)
    (hunit : ∀ u ∈ feats, normSq u = 1) :
    nearestIdx qv feats = cosineNearestIdx qv feats := by
  unfold nearestIdx cosineNearestIdx
  have hmap : feats.map (fun f => distSq qv f) =
      (feats.map (fun f => dotQ qv f)).map (fun x => 1 + 1 - 2 * x) := by
    rw [List.map_map]
    apply List.map_congr_left
    intro u hu
    show distSq qv u = 1 + 1 - 2 * dotQ qv u
    rw [distSq_expand qv u (hlen u hu).symm, hq, hunit u hu]
  rw [hmap]
  exact argminIdx_map_affine 2 (1 + 1) (by norm_num) _

theorem nearestIdx_eq_cosine_on_unit_vectors_witness :
    nearestIdx [1, 0] [[0, 1], [(3 : ℚ)/5, 4/5]] =
      cosineNearestIdx [1, 0] [[0, 1], [(3 : ℚ)/5, 4/5]] :=
  nearestIdx_eq_cosine_on_unit_vectors [1, 0] [[0, 1], [(3 : ℚ)/5, 4/5]]
    (by with_unfolding_all decide) (by with_unfolding_all decide)
    (by with_unfolding_all decide)

/-! ### Claim C3 -/

/-- C3 counterexample: the save/load round-trip does not preserve
deduplication behavior. After one request "Hello" (state `demoS1`, whose
used set records the returned rendered string `demoRun1.1`), saving and
loading yields an engine that — the snapshot's training data intact —
returns that very same rendered string again for "Hello", while the
pre-save engine does not: `used_response_sets` is not part of the
persisted snapshot (and the code has no learned-phrase memory at all). -/
theorem snapshotRoundtripLosesDedup :
    (loadFromSnapshot (saveSnapshot demoS1)).training_data = demoS1.training_data ∧
    (loadFromSnapshot (saveSnapshot demoS1)).used_response_sets ≠
      demoS1.used_response_sets ∧
    (generateResponse v0 (loadFromSnapshot (saveSnapshot demoS1)) "Hello" [0]).1 =
      demoRun1.1 ∧
    (generateResponse v0 demoS1 "Hello" [0]).1 ≠ demoRun1.1 := by
  decide

/-- C3 amended: the snapshot round-trip preserves exactly the
`training_data` record (corpus queries, cluster labels, generated-response
log); everything else a restarted engine holds is re-initialized — the
used-response sets are empty and the response banks are back to their
static contents, so runtime-appended templates and all dedup bookkeeping
are lost. -/
theorem snapshot_roundtrip_training_data_only (s : EngineState) :
    (loadFromSnapshot (saveSnapshot s)).training_data = s.training_data ∧
    (loadFromSnapshot (saveSnapshot s)).used_response_sets = [] ∧
    (loadFromSnapshot (saveSnapshot s)).response_formats = responseFormats ∧
    (loadFromSnapshot (saveSnapshot s)).query_response_map = queryResponseMap :=
  ⟨rfl, rfl, rfl, rfl⟩

/-! ### Claim C5 -/

/-- C5 counterexample: the synthesizer's collision check does not stand
between every append and the bank. In `dupState` the bank of category "c"
holds exactly the two strings the synthesizer's two fixed-fallback
candidates render to for query "q" (they contain no periods, so the
key-phrase pool is empty), and both renderings are already in the query's
used set. The request exhausts the bank, the first candidate collides with
the bank, the single retry produces the second candidate — and it is
appended although it is itself already present: the post-state bank holds
`s2d` twice. I4 as stated is violated. -/
theorem retryCandidateAppendedUnverified :
    lookupA dupState.query_response_map "c" = some ⟨["q"], [s1d, s2d]⟩ ∧
    dupRun.1 = s2d ∧
    lookupA dupRun.2.1.query_response_map "c" = some ⟨["q"], [s1d, s2d, s2d]⟩ := by
  decide

/-- C5 amended: the verification happens exactly once, on the first
candidate: when that candidate is absent from the bank-plus-log collision
set, it is the returned (and hence appended) string and is indeed absent
from both the bank and the generated-response log; when it collides, the
retry candidate is returned without any re-verification (see the
counterexample). -/
theorem first_candidate_append_verified (s : EngineState) (q : String)
    (cat : Option String) (r : List Nat)
    (h : (synthCandidate s q cat fallbackAction1 r).1 ∉ allResponsesFor s cat) :
    (generateNewResponse s q cat r).1 = (synthCandidate s q cat fallbackAction1 r).1 ∧
    (generateNewResponse s q cat r).1 ∉ existingResponsesFor s cat ∧
    (generateNewResponse s q cat r).1 ∉ generatedLogFor s cat := by
  unfold generateNewResponse
  dsimp only
  rw [if_neg (fun hh => h (List.elem_iff.mp hh))]
  refine ⟨rfl, fun hmem => h ?_, fun hmem => h ?_⟩
  · exact List.mem_append_left _ hmem
  · exact List.mem_append_right _ hmem

theorem first_candidate_append_verified_witness :
    (generateNewResponse initState "hi" (some "greeting") [0]).1 =
      (synthCandidate initState "hi" (some "greeting") fallbackAction1 [0]).1 ∧
    (generateNewResponse initState "hi" (some "greeting") [0]).1 ∉
      existingResponsesFor initState (some "greeting") ∧
    (generateNewResponse initState "hi" (some "greeting") [0]).1 ∉
      generatedLogFor initState (some "greeting") :=
  first_candidate_append_verified initState "hi" (some "greeting") [0] (by decide)

/-! ### Claim C6 -/

/-- C6 counterexample: a state reachable from a fresh engine in two
requests violates the one-slot invariant. The first "washroom" request
exhausts the single-template `washroom_service` bank; the second
synthesizes "I’m here to assist with washroom. for washroom" — a fully
rendered string with zero `{query}` slots — and appends it to the bank's
template list, where later queries can select it (its rendering then still
carries this query's text). -/
theorem synthesisAppendsSlotlessTemplate :
    washRun2.1 = "I’m here to assist with washroom. for washroom" ∧
    countOcc "I’m here to assist with washroom. for washroom".data qSlot = 0 ∧
    lookupA washRun2.2.2.1.query_response_map "washroom_service" =
      some ⟨["washroom", "toilet"],
        ["I regret to inform you that as of now, Flix does not provide washroom facilities on the bus for {query}. However, the bus host will take care of comfort breaks.",
         "I’m here to assist with washroom. for washroom"]⟩ := by
  decide

/-- C6 amended: the exactly-one-`{query}`-slot property holds for all
statically configured templates — every generic format, every category
bank template, and every synthesis skeleton (which also carries exactly one
`{action}` slot) — but not for bank contents after a synthesis append,
which inserts fully rendered, slot-free strings (see the counterexample). -/
theorem static_templates_have_one_slot :
    (responseFormats.all (fun t => countOcc t.data qSlot == 1) &&
     queryResponseMap.all (fun p => p.2.responses.all (fun t => countOcc t.data qSlot == 1)) &&
     newTemplates.all (fun t => countOcc t.data qSlot == 1 && countOcc t.data aSlot == 1)) = true := by
  decide

/-! ### Claim C7 -/

theorem synthCandidate_shape (s : EngineState) (q : String) (cat : Option String)
    (fb : String) (r : List Nat) :
    ∃ t ∈ newTemplates, ∃ a : String,
      (synthCandidate s q cat fb r).1 = renderTA t q a ∧
      (extractKeyPhrases (existingResponsesFor s cat) q = [] → a = fb) ∧
      (extractKeyPhrases (existingResponsesFor s cat) q ≠ [] →
        a ∈ extractKeyPhrases (existingResponsesFor s cat) q) := by
  unfold synthCandidate
  dsimp only
  have hT : newTemplates ≠ [] := by decide
  cases hkp : (extractKeyPhrases (existingResponsesFor s cat) q).isEmpty with
  | true =>
    rw [if_pos rfl]
    exact ⟨(chooseL newTemplates "" r).1, chooseL_fst_mem _ _ _ hT, fb, rfl,
      fun _ => rfl, fun hne => absurd (List.isEmpty_iff.mp hkp) hne⟩
  | false =>
    rw [if_neg Bool.false_ne_true]
    have hkpne : extractKeyPhrases (existingResponsesFor s cat) q ≠ [] := by
      intro hEq
      simp [hEq] at hkp
    exact ⟨(chooseL newTemplates ""
        (chooseL (extractKeyPhrases (existingResponsesFor s cat) q) fb r).2).1,
      chooseL_fst_mem _ _ _ hT,
      (chooseL (extractKeyPhrases (existingResponsesFor s cat) q) fb r).1, rfl,
      fun hEq => absurd hEq hkpne, fun _ => chooseL_fst_mem _ _ _ hkpne⟩

/-- C7: the synthesizer is total and bounded: on every input it returns a
string of the form "skeleton rendered with the lower-cased query and an
action" for one of the seven skeletons; when no action fragment is
extractable the action is one of the two fixed fallback phrases; and the
collision handling is exactly one check and one retry — a colliding first
candidate makes the call return the second candidate unconditionally (even
if that one collides too), a collision-free first candidate is returned
as-is. The request is never failed. -/
theorem synthesizer_total_shape (s : EngineState) (q : String)
    (cat : Option String) (r : List Nat) :
    (∃ t ∈ newTemplates, ∃ a : String,
      (generateNewResponse s q cat r).1 = renderTA t q a ∧
      (extractKeyPhrases (existingResponsesFor s cat) q = [] →
        a = fallbackAction1 ∨ a = fallbackAction2) ∧
      (extractKeyPhrases (existingResponsesFor s cat) q ≠ [] →
        a ∈ extractKeyPhrases (existingResponsesFor s cat) q)) ∧
    ((synthCandidate s q cat fallbackAction1 r).1 ∈ allResponsesFor s cat →
      generateNewResponse s q cat r =
        synthCandidate s q cat fallbackAction2
          (synthCandidate s q cat fallbackAction1 r).2) ∧
    ((synthCandidate s q cat fallbackAction1 r).1 ∉ allResponsesFor s cat →
      generateNewResponse s q cat r = synthCandidate s q cat fallbackAction1 r) := by
  unfold generateNewResponse
  dsimp only
  cases hc : ((allResponsesFor s cat).contains
      (synthCandidate s q cat fallbackAction1 r).1) with
  | true =>
    rw [if_pos rfl]
    refine ⟨?_, fun _ => rfl, fun hn => absurd (List.elem_iff.mp hc) hn⟩
    obtain ⟨t, ht, a, ha, hfb, hkp⟩ :=
      synthCandidate_shape s q cat fallbackAction2
        (synthCandidate s q cat fallbackAction1 r).2
    exact ⟨t, ht, a, ha, fun hk => Or.inr (hfb hk), hkp⟩
  | false =>
    rw [if_neg Bool.false_ne_true]
    refine ⟨?_, fun hmem => ?_, fun _ => rfl⟩
    · obtain ⟨t, ht, a, ha, hfb, hkp⟩ :=
        synthCandidate_shape s q cat fallbackAction1 r
      exact ⟨t, ht, a, ha, fun hk => Or.inl (hfb hk), hkp⟩
    · have hmem2 : ((allResponsesFor s cat).contains
          (synthCandidate s q cat fallbackAction1 r).1) = true :=
        List.elem_iff.mpr hmem
      rw [hc] at hmem2
      exact absurd hmem2 Bool.false_ne_true

/-! ### Claim C4 -/

/-- C4: after any sequence of engine operations — request handling (which
records the incoming query, may re-cluster the corpus, and may synthesize
and log a response through a second recording) and loading any snapshot
shaped as the spec's data model prescribes (cluster-label list of the same
length as the query list) — the corpus query list and the cluster-label
list have identical length. -/
theorem corpus_labels_length_invariant (v : String → List ℚ) (ops : List EngOp)
    (hwf : ∀ t : TrainingData, EngOp.load t ∈ ops → wfSnap t) :
    I3 (runOps v initState ops) :=
  runOps_I3 v ops initState rfl hwf

theorem corpus_labels_length_invariant_witness :
    I3 (runOps v0 initState
      [EngOp.req "Hello" [0], EngOp.load ⟨["a"], [0], []⟩, EngOp.req "hi" [0]]) := by
  apply corpus_labels_length_invariant
  intro t ht
  simp only [List.mem_cons, List.not_mem_nil, or_false] at ht
  rcases ht with h | h | h
  · simp at h
  · injection h with h1
    rw [h1]
    rfl
  · simp at h

/-! ### Claim C8 -/

/-- C8: the router scans the category table in declaration order and
returns the first category one of whose keywords occurs as a substring of
the lower-cased (not stop-word-stripped) query — exactly the
first-satisfying-entry `find?` over the table — and `none` when no keyword
of any category hits; and with a `none` category the selection falls back
to the generic format list: whenever an unused generic format remains, the
response returned is one of the generic formats rendered with the query. -/
theorem router_first_match_and_generic_fallback
    (m : List (String × CatInfo)) (q : String) (v : String → List ℚ)
    (s : EngineState) (r : List Nat)
    (hnone : getQueryCategory s.query_response_map q = none)
    (hav : availFormats s.response_formats q (usedFor s q) ≠ []) :
    getQueryCategory m q =
      (m.find? (fun p =>
        p.2.keywords.any (fun k => containsL k.data (lowerL q.data)))).map Prod.fst ∧
    (generateInitialResponse v s q (getQueryCategory s.query_response_map q) r).1
      ∈ s.response_formats.map (fun f => renderT f q) := by
  refine ⟨getQueryCategory_eq_find? m q, ?_⟩
  rw [hnone]
  unfold generateInitialResponse selectScope
  unfold selectScope.selectGeneric
  dsimp only
  rw [ensureUsed_formats, usedFor_ensureUsed]
  cases hie : (availFormats s.response_formats q (usedFor s q)).isEmpty with
  | true => exact absurd (List.isEmpty_iff.mp hie) hav
  | false =>
    rw [if_neg (by simp [hie])]
    have h1 := chooseL_fst_mem (availFormats s.response_formats q (usedFor s q)) "" r hav
    unfold availFormats at h1
    exact List.mem_map.mpr ⟨_, (List.mem_filter.mp h1).1, rfl⟩

theorem router_first_match_and_generic_fallback_witness :
    getQueryCategory queryResponseMap "zzzz" =
      ((queryResponseMap.find? (fun p =>
        p.2.keywords.any (fun k => containsL k.data (lowerL "zzzz".data)))).map
          Prod.fst) ∧
    (generateInitialResponse v0 initState "zzzz"
        (getQueryCategory initState.query_response_map "zzzz") [0]).1
      ∈ initState.response_formats.map (fun f => renderT f "zzzz") :=
  router_first_match_and_generic_fallback queryResponseMap "zzzz" v0 initState [0]
    (by decide) (by decide)

/-! ### Claim C10 -/

/-- C10 counterexample for the "(with two -1 labels)" parenthetical: from
`cState` (corpus of 8 queries, query counter 3, and the bank of category
"c" already exhausted for "qq0"), handling "qq0" takes the small-corpus
path (9 < 10 after the first append), synthesizes on exhaustion, and the
second `train_model` call appends again — corpus growth of two, as the
claim's main clause says — but that call lands on a training-interval
boundary (counter 5) with a corpus of 10, so `custom_cluster` runs and
overwrites every label: the two appended records end with labels 8 and 8,
not -1 and -1. -/
theorem exhaustionPathRelabelsAppendedQueries :
    cState.training_data.queries.length = 8 ∧
    cState.training_data.cluster_labels = [-1, -1, -1, -1, -1, -1, -1, -1] ∧
    cRun.2.2.1.training_data.queries =
      ["h1", "h2", "h3", "h4", "h5", "h6", "h7", "h8", "qq0", "qq0"] ∧
    cRun.2.2.1.training_data.cluster_labels = [0, 1, 2, 3, 4, 5, 6, 7, 8, 8] := by
  with_unfolding_all decide

/-- C10 amended: on the small-corpus path (corpus still below the cluster
count after the entry append), one call to `generate_response` appends the
incoming query to the corpus twice exactly when the resolved scope is
exhausted — once at entry and once when the synthesized response is logged
through the second `train_model` call — and only once otherwise. The two
appended labels are both -1, and they remain -1 in the post state unless
the second append lands on a training-interval boundary with a corpus of at
least the cluster count, in which case the re-clustering pass replaces all
labels (see the counterexample); on the non-exhausted path the single
appended label is -1. -/
theorem double_append_on_exhaustion (v : String → List ℚ) (s : EngineState)
    (q : String) (r : List Nat)
    (hsmall : s.training_data.queries.length + 1 < numClusters) :
    (initialAvail (trainModel v s q none none r).1 q
        (getQueryCategory s.query_response_map q) = [] →
      (generateResponse v s q r).2.2.1.training_data.queries =
        s.training_data.queries ++ [q, q] ∧
      (¬((s.query_count + 2) % trainInterval = 0 ∧
          numClusters ≤ s.training_data.queries.length + 2) →
        (generateResponse v s q r).2.2.1.training_data.cluster_labels =
          s.training_data.cluster_labels ++ [-1, -1])) ∧
    (initialAvail (trainModel v s q none none r).1 q
        (getQueryCategory s.query_response_map q) ≠ [] →
      (generateResponse v s q r).2.2.1.training_data.queries =
        s.training_data.queries ++ [q] ∧
      (generateResponse v s q r).2.2.1.training_data.cluster_labels =
        s.training_data.cluster_labels ++ [-1]) := by
  have hq1 := trainModel_queries v s q none none r
  have hlab1 : (trainModel v s q none none r).1.training_data.cluster_labels =
      s.training_data.cluster_labels ++ [-1] :=
    trainModel_labels_no_retrain v s q none none r (fun hcc => by
      have h2 := hcc.2
      rw [show numClusters = 10 from rfl] at h2
      omega)
  have hlen1 : (trainModel v s q none none r).1.training_data.queries.length <
      numClusters := by
    rw [hq1]
    simpa using hsmall
  have hcat : getQueryCategory (trainModel v s q none none r).1.query_response_map q =
      getQueryCategory s.query_response_map q := by
    rw [trainModel_map]
  unfold generateResponse
  dsimp only
  rw [if_pos hlen1]
  unfold generateInitialResponse
  dsimp only
  rw [hcat]
  constructor
  · intro hex
    have hex' : initialAvail (ensureUsed (trainModel v s q none none r).1 q) q
        (getQueryCategory s.query_response_map q) = [] := by
      rw [initialAvail_ensureUsed]
      exact hex
    have hmain := selectScope_td_exhausted v
      (ensureUsed (trainModel v s q none none r).1 q) q
      (getQueryCategory s.query_response_map q)
      (trainModel v s q none none r).2 hex'
    constructor
    · rw [hmain.1, ensureUsed_training_data, hq1, List.append_assoc]
      rfl
    · intro hnr
      have hcond : ¬(((ensureUsed (trainModel v s q none none r).1 q).query_count + 1) %
            trainInterval = 0 ∧
          numClusters ≤
            (ensureUsed (trainModel v s q none none r).1
                q).training_data.queries.length + 1) := by
        rw [ensureUsed_count, trainModel_count, ensureUsed_training_data, hq1]
        intro hcc
        apply hnr
        constructor
        · have h1 := hcc.1
          rw [show trainInterval = 5 from rfl] at h1 ⊢
          omega
        · have h2 := hcc.2
          simp only [List.length_append, List.length_cons, List.length_nil] at h2
          omega
      rw [hmain.2 hcond, ensureUsed_training_data, hlab1, List.append_assoc]
      rfl
  · intro hne
    have hne' : initialAvail (ensureUsed (trainModel v s q none none r).1 q) q
        (getQueryCategory s.query_response_map q) ≠ [] := by
      rw [initialAvail_ensureUsed]
      exact hne
    have hmain := selectScope_td_not_exhausted v
      (ensureUsed (trainModel v s q none none r).1 q) q
      (getQueryCategory s.query_response_map q)
      (trainModel v s q none none r).2 hne'
    rw [hmain, ensureUsed_training_data]
    exact ⟨hq1, hlab1⟩

theorem double_append_on_exhaustion_witness :
    (generateResponse v0 dupState "q" [4, 4]).2.2.1.training_data.queries =
      dupState.training_data.queries ++ ["q", "q"] ∧
    (generateResponse v0 dupState "q" [4, 4]).2.2.1.training_data.cluster_labels =
      dupState.training_data.cluster_labels ++ [-1, -1] ∧
    (generateResponse v0 initState "Hello" [0]).2.2.1.training_data.queries =
      initState.training_data.queries ++ ["Hello"] :=
  let hx := (double_append_on_exhaustion v0 dupState "q" [4, 4] (by decide)).1
    (by decide)
  let hn := (double_append_on_exhaustion v0 initState "Hello" [0] (by decide)).2
    (by decide)
  ⟨hx.1, hx.2 (by decide), hn.1⟩

/-! ### Claim C9 -/

theorem lookupA_mem {α : Type} (m : List (String × α)) (k : String) (v : α)
    (h : lookupA m k = some v) : (k, v) ∈ m := by
  induction m with
  | nil => cases h
  | cons p rest ih =>
    obtain ⟨k2, v2⟩ := p
    simp only [lookupA] at h
    by_cases hk : k2 = k
    · rw [if_pos hk] at h
      injection h with hv
      subst hk
      subst hv
      exact List.mem_cons_self ..
    · rw [if_neg hk] at h
      exact List.mem_cons_of_mem _ (ih h)

theorem trainModel_formats (v : String → List ℚ) (s : EngineState) (q : String)
    (g c : Option String) (r : List Nat) :
    (trainModel v s q g c r).1.response_formats = s.response_formats := by
  unfold trainModel
  dsimp only
  split <;> rfl

theorem allTemplates_ensureUsed (s : EngineState) (q : String) :
    allTemplates (ensureUsed s q) = allTemplates s := by
  unfold allTemplates
  rw [ensureUsed_formats, ensureUsed_map]

theorem allTemplates_trainModel (v : String → List ℚ) (s : EngineState)
    (q : String) (g c : Option String) (r : List Nat) :
    allTemplates (trainModel v s q g c r).1 = allTemplates s := by
  unfold allTemplates
  rw [trainModel_formats, trainModel_map]

theorem mem_allTemplates_of_format (s : EngineState) (t : String)
    (h : t ∈ s.response_formats) : t ∈ allTemplates s :=
  List.mem_append_left _ h

theorem mem_allTemplates_of_bank (s : EngineState) (c : String) (info : CatInfo)
    (hc : lookupA s.query_response_map c = some info) (t : String)
    (h : t ∈ info.responses) : t ∈ allTemplates s := by
  refine List.mem_append_right _ ?_
  exact List.mem_flatten.mpr
    ⟨info.responses, List.mem_map.mpr ⟨(c, info), lookupA_mem _ _ _ hc, rfl⟩, h⟩

theorem availFormatsE_ok (ts : List String) (q : String) (used : List String)
    (h : ∀ t ∈ ts, (renderTE t q).isOk = true) :
    ∃ l, availFormatsE ts q used = Except.ok l ∧ ∀ x ∈ l, x ∈ ts := by
  induction ts with
  | nil => exact ⟨[], rfl, by simp⟩
  | cons f rest ih =>
    have hf := h f (List.mem_cons_self ..)
    cases hrf : renderTE f q with
    | error e =>
      rw [hrf] at hf
      exact absurd hf (fun hh => Bool.false_ne_true hh)
    | ok rf =>
      obtain ⟨l, hl, hsub⟩ := ih (fun t ht => h t (List.mem_cons_of_mem _ ht))
      refine ⟨if used.contains rf then l else f :: l, ?_, ?_⟩
      · simp only [availFormatsE]
        rw [hrf, hl]
      · intro x hx
        by_cases hu : used.contains rf = true
        · rw [if_pos hu] at hx
          exact List.mem_cons_of_mem _ (hsub x hx)
        · rw [if_neg hu] at hx
          rcases List.mem_cons.mp hx with rfl | hx2
          · exact List.mem_cons_self ..
          · exact List.mem_cons_of_mem _ (hsub x hx2)

theorem selectGenericE_ok (v : String → List ℚ) (s0 : EngineState) (q : String)
    (used : List String) (r : List Nat)
    (h : ∀ t ∈ s0.response_formats, (renderTE t q).isOk = true) :
    ∃ resp s2 r2,
      selectScopeE.selectGenericE v s0 q used r = (Except.ok resp, s2, r2) := by
  obtain ⟨l, hl, hsub⟩ := availFormatsE_ok s0.response_formats q used h
  unfold selectScopeE.selectGenericE
  rw [hl]
  dsimp only
  cases hle : l.isEmpty with
  | true =>
    rw [if_pos rfl]
    exact ⟨_, _, _, rfl⟩
  | false =>
    rw [if_neg Bool.false_ne_true]
    have hne : l ≠ [] := fun hEq => by simp [hEq] at hle
    have hok := h _ (hsub _ (chooseL_fst_mem l "" r hne))
    cases hrr : renderTE (chooseL l "" r).1 q with
    | error e =>
      rw [hrr] at hok
      exact absurd hok (fun hh => Bool.false_ne_true hh)
    | ok resp => exact ⟨resp, _, _, rfl⟩

theorem selectScopeE_ok (v : String → List ℚ) (s0 : EngineState) (q : String)
    (cat : Option String) (r : List Nat)
    (h : ∀ t ∈ allTemplates s0, (renderTE t q).isOk = true) :
    ∃ resp s2 r2, selectScopeE v s0 q cat r = (Except.ok resp, s2, r2) := by
  have hfmt : ∀ t ∈ s0.response_formats, (renderTE t q).isOk = true :=
    fun t ht => h t (mem_allTemplates_of_format s0 t ht)
  cases cat with
  | none => exact selectGenericE_ok v s0 q _ r hfmt
  | some c =>
    simp only [selectScopeE]
    by_cases hce : (c == "") = true
    · rw [if_pos hce]
      exact selectGenericE_ok v s0 q _ r hfmt
    · rw [if_neg hce]
      cases hlk : lookupA s0.query_response_map c with
      | none => exact selectGenericE_ok v s0 q _ r hfmt
      | some info =>
        have hbank : ∀ t ∈ info.responses, (renderTE t q).isOk = true :=
          fun t ht => h t (mem_allTemplates_of_bank s0 c info hlk t ht)
        obtain ⟨l, hl, hsub⟩ := availFormatsE_ok info.responses q (usedFor s0 q) hbank
        dsimp only
        rw [hl]
        dsimp only
        cases hle : l.isEmpty with
        | true =>
          rw [if_pos rfl]
          exact ⟨_, _, _, rfl⟩
        | false =>
          rw [if_neg Bool.false_ne_true]
          have hne : l ≠ [] := fun hEq => by simp [hEq] at hle
          have hok := hbank _ (hsub _ (chooseL_fst_mem l "" r hne))
          cases hrr : renderTE (chooseL l "" r).1 q with
          | error e =>
            rw [hrr] at hok
            exact absurd hok (fun hh => Bool.false_ne_true hh)
          | ok resp => exact ⟨resp, _, _, rfl⟩

theorem generateInitialResponseE_ok (v : String → List ℚ) (s : EngineState)
    (q : String) (cat : Option String) (r : List Nat)
    (h : ∀ t ∈ allTemplates s, (renderTE t q).isOk = true) :
    ∃ resp s2 r2,
      generateInitialResponseE v s q cat r = (Except.ok resp, s2, r2) := by
  unfold generateInitialResponseE
  refine selectScopeE_ok v (ensureUsed s q) q cat r ?_
  rw [allTemplates_ensureUsed]
  exact h

theorem generateResponseE_ok (v : String → List ℚ) (s : EngineState)
    (q : String) (r : List Nat)
    (h : ∀ t ∈ allTemplates s, (renderTE t q).isOk = true) :
    ∃ rs s2 r2, generateResponseE v s q r = (Except.ok rs, s2, r2) := by
  have h1 : ∀ t ∈ allTemplates (trainModel v s q none none r).1,
      (renderTE t q).isOk = true := by
    rw [allTemplates_trainModel]
    exact h
  have h2 : ∀ t ∈ allTemplates (ensureUsed (trainModel v s q none none r).1 q),
      (renderTE t q).isOk = true := by
    rw [allTemplates_ensureUsed, allTemplates_trainModel]
    exact h
  unfold generateResponseE
  dsimp only
  split
  · obtain ⟨resp, s2, r2, hEq⟩ := generateInitialResponseE_ok v _ q _ _ h1
    rw [hEq]
    exact ⟨(resp, "Success"), s2, r2, rfl⟩
  · split
    · exact ⟨_, _, _, rfl⟩
    · exfalso
      rename_i e heq
      split at heq
      · obtain ⟨resp, s2, r2, hEq⟩ := generateInitialResponseE_ok v _ q _ _ h1
        rw [hEq] at heq
        cases heq
      · split at heq
        · obtain ⟨resp, s2, r2, hEq⟩ := generateInitialResponseE_ok v _ q _ _ h2
          rw [hEq] at heq
          cases heq
        · obtain ⟨resp, s2, r2, hEq⟩ := selectScopeE_ok v _ q _ _ h2
          rw [hEq] at heq
          cases heq

/-- C9 counterexample: a request whose trimmed query is non-empty can be
rejected with the server-side 500 and no response. From a fresh engine,
two requests for the brace-carrying query `brq` are served, but the second
exhausts the single-template `washroom_service` bank and synthesis appends
the rendered string — stray brace included — to the bank. The third
request, the plain non-empty query "washroom", routes to that category,
and rendering the corrupted template inside the availability comprehension
raises; the exception propagates (the small-corpus path is outside the
`try`) to the endpoint's catch-all, which rejects the request with the
internal-error detail instead of producing a response. -/
theorem nonEmptyQueryRejectedWithServerError :
    trimL "washroom".data = "washroom".data ∧
    "washroom".data ≠ [] ∧
    eRun1.1.isOk = true ∧
    eRun2.1.isOk = true ∧
    eRun3.1 = Except.error "Internal error: Single '\x7b' encountered in format string" :=
  ⟨by decide, by decide, by decide, by decide, rfl⟩

/-- C9 amended: a request whose query is empty after trimming is rejected
with the client-visible 400-error before the engine runs, the state coming
back untouched, and that rejection happens only for empty-after-trim
queries; a request whose trimmed query is non-empty is served with a
response whenever every template the engine can render (the generic
formats and every bank) formats without error for it — in particular
whenever no synthesis append has corrupted a bank — but can otherwise be
rejected with the catch-all 500 (see the counterexample). -/
theorem empty_rejected_wellformed_served (v : String → List ℚ)
    (s : EngineState) (raw : String) (r : List Nat)
    (hok : ∀ t ∈ allTemplates s,
      (renderTE t (String.mk (trimL raw.data))).isOk = true) :
    (trimL raw.data = [] →
      endpointModelE v s raw r = (Except.error "Query cannot be empty", s)) ∧
    ((endpointModelE v s raw r).1 = Except.error "Query cannot be empty" →
      trimL raw.data = []) ∧
    (trimL raw.data ≠ [] → ∃ resp status s2,
      endpointModelE v s raw r = (Except.ok (resp, status), s2)) := by
  unfold endpointModelE
  dsimp only
  by_cases hq : String.mk (trimL raw.data) = ""
  · rw [if_pos hq]
    have htrim : trimL raw.data = [] := by
      simpa using congrArg String.data hq
    exact ⟨fun _ => rfl, fun _ => htrim, fun hne => absurd htrim hne⟩
  · rw [if_neg hq]
    obtain ⟨rs, s2, r2, hEq⟩ :=
      generateResponseE_ok v s (String.mk (trimL raw.data)) r hok
    rw [hEq]
    dsimp only
    refine ⟨fun hEmpty => ?_, fun habs => ?_, fun _ => ⟨rs.1, rs.2, s2, rfl⟩⟩
    · exact absurd (show String.mk (trimL raw.data) = "" by rw [hEmpty]) hq
    · cases habs


theorem empty_rejected_wellformed_served_witness :
    ∃ resp status s2,
      endpointModelE v0 initState "hello" [0] = (Except.ok (resp, status), s2) :=
  (empty_rejected_wellformed_served v0 initState "hello" [0] (by decide)).2.2
    (by decide)

end QRApi
